import Mathlib

/-
Verification development for the DasiaAIO backend's resource-allocation and
guard-lifecycle engine.  The Rust handlers (src/handlers/*.rs) are shallowly
embedded as pure Lean functions over an explicit relational state `DB`.
Conventions of the embedding:
  * timestamps are modelled as `Int` (minutes); `CURRENT_TIMESTAMP`/`NOW()`
    becomes an explicit `now : Int` parameter;
  * `utils::generate_id()` becomes explicitly passed identifiers (the callers
    of the embedding supply them, mirroring freshly generated UUIDs);
  * SQL result-set order is the list order of the state; `LIMIT n` is
    `List.take n`;
  * `f64` score/rating arithmetic is idealised as exact rational arithmetic
    over `ℚ`;
  * handler errors abort before any write in every handler modelled here, so
    each operation returns the pair of an `Except` result and the post state,
    and every error branch returns the state unchanged, exactly as the Rust
    code does;
  * audit-only columns (`created_at`, `updated_at`, display-only columns such
    as firearm `model`/`caliber`) are omitted from the row types.
-/

namespace DasiaAIO

/-- Modelled from the spec: the error taxonomy of spec §7.  The crate module
`error` that declares `AppError` is not part of the source snapshot (only its
uses in the handlers are); the variants below are the ones the handlers
construct (`BadRequest`, `NotFound`, `Forbidden`, `Conflict`,
`ValidationError`, `DatabaseError`, `InternalServerError`). -/
inductive AppError where
  | BadRequest (msg : String)
  | NotFound (msg : String)
  | Forbidden (msg : String)
  | Conflict (msg : String)
  | ValidationError (msg : String)
  | DatabaseError (msg : String)
  | InternalServerError (msg : String)
  deriving DecidableEq, Repr

/-- Row of the `users` table (db.rs); only the columns the embedded handlers
read.  Guards are the rows with `role = "user"`. -/
structure User where
  id : String
  username : String
  full_name : Option String
  role : String
  verified : Bool
  deriving DecidableEq, Repr

/-- Row of the `firearms` table; `status ∈ {available, allocated, maintenance}`. -/
structure Firearm where
  id : String
  status : String
  deriving DecidableEq, Repr

/-- Row of the `firearm_allocations` table. -/
structure FirearmAllocation where
  id : String
  guard_id : String
  firearm_id : String
  allocation_date : Int
  return_date : Option Int
  status : String
  issued_by : Option String
  expected_return_date : Option Int
  notes : Option String
  deriving DecidableEq, Repr

/-- Row of the `armored_cars` table; only the columns the allocation logic reads. -/
structure ArmoredCar where
  id : String
  status : String
  deriving DecidableEq, Repr

/-- Row of the `car_allocations` table. -/
structure CarAllocation where
  id : String
  car_id : String
  client_id : String
  allocation_date : Int
  return_date : Option Int
  expected_return_date : Option Int
  status : String
  notes : Option String
  deriving DecidableEq, Repr

/-- Row of the `shifts` table, including the `grace_period_minutes` and
`replacement_status` columns read by guard_replacement.rs (nullable there,
hence `Option`). -/
structure Shift where
  id : String
  guard_id : String
  start_time : Int
  end_time : Int
  client_site : String
  status : String
  grace_period_minutes : Option Int
  replacement_status : Option String
  deriving DecidableEq, Repr

/-- Row of the `attendance` table. -/
structure Attendance where
  id : String
  guard_id : String
  shift_id : String
  check_in_time : Int
  check_out_time : Option Int
  status : String
  deriving DecidableEq, Repr

/-- Row of the `notifications` table; the SQL column `type` is rendered as
`ntype`.  The human-readable `message` text is kept abstract up to the client
site (the Rust code also interpolates formatted shift times into it). -/
structure Notification where
  id : String
  user_id : String
  title : String
  message : String
  ntype : String
  related_shift_id : Option String
  read : Bool
  deriving DecidableEq, Repr

/-- Row of the `guard_availability` table (`guard_id` is UNIQUE in db.rs). -/
structure GuardAvailability where
  id : String
  guard_id : String
  available : Bool
  deriving DecidableEq, Repr

/-- Row of the `guard_firearm_permits` table. -/
structure GuardFirearmPermit where
  id : String
  guard_id : String
  status : String
  expiry_date : Int
  deriving DecidableEq, Repr

/-- Row of the `training_records` table. -/
structure TrainingRecord where
  id : String
  guard_id : String
  training_type : String
  status : String
  expiry_date : Option Int
  deriving DecidableEq, Repr

/-- Row of the `trips` table; only the columns assign_mission writes. -/
structure Trip where
  id : String
  car_id : String
  driver_id : String
  start_time : Int
  end_time : Int
  destination : String
  status : String
  deriving DecidableEq, Repr

/-- Row of the `client_evaluations` table; `rating DOUBLE PRECISION` is
modelled over `ℚ`. -/
structure ClientEvaluation where
  id : String
  guard_id : String
  shift_id : Option String
  mission_id : Option String
  evaluator_name : String
  evaluator_role : Option String
  rating : ℚ
  comment : Option String
  deriving DecidableEq, Repr

/-- Row of the `punctuality_records` table; only the columns merit.rs reads. -/
structure PunctualityRecord where
  id : String
  guard_id : String
  is_on_time : Bool
  status : String
  deriving DecidableEq, Repr

/-- The relational store: one list per table touched by the embedded handlers. -/
structure DB where
  users : List User
  firearms : List Firearm
  firearm_allocations : List FirearmAllocation
  armored_cars : List ArmoredCar
  car_allocations : List CarAllocation
  shifts : List Shift
  attendance : List Attendance
  notifications : List Notification
  guard_availability : List GuardAvailability
  guard_firearm_permits : List GuardFirearmPermit
  training_records : List TrainingRecord
  trips : List Trip
  client_evaluations : List ClientEvaluation
  punctuality_records : List PunctualityRecord
  deriving DecidableEq, Repr

/-- The empty store, used to build concrete test states. -/
def emptyDB : DB :=
  { users := [], firearms := [], firearm_allocations := [], armored_cars := [],
    car_allocations := [], shifts := [], attendance := [], notifications := [],
    guard_availability := [], guard_firearm_permits := [], training_records := [],
    trips := [], client_evaluations := [], punctuality_records := [] }

/-- Request body of `issueFirearm`.  models.rs in the snapshot predates the
handler; the `force`, `issued_by` and `expected_return_date` fields are the ones
firearm_allocation.rs reads off the payload. -/
structure IssueFirearmRequest where
  firearm_id : String
  guard_id : String
  force : Option Bool
  issued_by : Option String
  expected_return_date : Option Int
  notes : Option String
  deriving DecidableEq, Repr

/-- Request body of `issueCar` (models.rs). -/
structure IssueCarRequest where
  car_id : String
  client_id : String
  expected_return_date : Option Int
  notes : Option String
  deriving DecidableEq, Repr

/-- Request body of `createShift` (models.rs); the RFC3339 time strings are
modelled as already-parsed timestamps (the handler rejects unparseable strings
with `BadRequest` before doing anything else, which is outside this model). -/
structure CreateShiftRequest where
  guard_id : String
  start_time : Int
  end_time : Int
  client_site : String
  deriving DecidableEq, Repr

/-- Request body of `submitClientEvaluation`; declared in the missing part of
models.rs, fields taken from the handler's binds. -/
structure CreateClientEvaluationRequest where
  guard_id : String
  shift_id : Option String
  mission_id : Option String
  evaluator_name : String
  evaluator_role : Option String
  rating : ℚ
  comment : Option String
  deriving DecidableEq, Repr

/-- Request body of `assignMission` (missions.rs); the date/start/end strings
are modelled as parsed timestamps, the `i32` counts as `Nat`. -/
structure MissionAssignmentRequest where
  mission_name : String
  guards_required : Nat
  vehicles_required : Nat
  firearms_required : Nat
  start_time : Int
  end_time : Int
  destination : String
  deriving DecidableEq, Repr

/-- Permit query of issue_firearm step 3: a `guard_firearm_permits` row for the
guard with `status = 'active'` and `expiry_date > NOW()`. -/
def has_valid_permit (db : DB) (guard_id : String) (now : Int) : Bool :=
  db.guard_firearm_permits.any fun p =>
    p.guard_id == guard_id && p.status == "active" && decide (p.expiry_date > now)

/-- Training query of issue_firearm step 4: a `training_records` row for the
guard with `training_type = 'firearms_handling'`, `status = 'valid'` and
`expiry_date IS NULL OR expiry_date > NOW()`. -/
def has_valid_training (db : DB) (guard_id : String) (now : Int) : Bool :=
  db.training_records.any fun t =>
    t.guard_id == guard_id && t.training_type == "firearms_handling" &&
    t.status == "valid" &&
    (t.expiry_date.isNone || decide (t.expiry_date.getD 0 > now))

/-- The user-existence probe `SELECT id FROM users WHERE id = $1` used by
several handlers. -/
def user_exists (db : DB) (id : String) : Bool :=
  db.users.any fun u => u.id == id

/-- State change of a successful firearm issuance: insert the active
allocation row and set the firearm's status to `allocated`
(firearm_allocation.rs, step 5). -/
def apply_issue_firearm (db : DB) (req : IssueFirearmRequest) (now : Int)
    (alloc_id : String) : DB :=
  { db with
    firearm_allocations := db.firearm_allocations ++
      [{ id := alloc_id, guard_id := req.guard_id, firearm_id := req.firearm_id,
         allocation_date := now, return_date := none, status := "active",
         issued_by := req.issued_by,
         expected_return_date := req.expected_return_date, notes := req.notes }],
    firearms := db.firearms.map fun f =>
      if f.id == req.firearm_id then { f with status := "allocated" } else f }

/-- firearm_allocation.rs `issue_firearm`: field check, firearm lookup,
availability check (skipped under `force`), guard lookup, permit and training
gates (skipped under `force`), then the allocation insert and status update. -/
def issue_firearm (db : DB) (req : IssueFirearmRequest) (now : Int)
    (alloc_id : String) : Except AppError String × DB :=
  if req.firearm_id = "" ∨ req.guard_id = "" then
    (Except.error (AppError.BadRequest "Firearm ID and Guard ID are required"), db)
  else
    let force := req.force.getD false
    match db.firearms.find? (fun f => f.id == req.firearm_id) with
    | none => (Except.error (AppError.NotFound "Firearm not found"), db)
    | some firearm =>
      if force = false ∧ firearm.status ≠ "available" then
        (Except.error (AppError.BadRequest
          ("Firearm is not available for allocation (current status: " ++
            firearm.status ++ ")")), db)
      else if user_exists db req.guard_id = false then
        (Except.error (AppError.NotFound "Guard not found"), db)
      else if force = false ∧ has_valid_permit db req.guard_id now = false then
        (Except.error (AppError.Forbidden
          "Guard does not have a valid, active firearm permit. Use force=true to override."), db)
      else if force = false ∧ has_valid_training db req.guard_id now = false then
        (Except.error (AppError.Forbidden
          "Guard does not have valid firearms_handling training. Use force=true to override."), db)
      else
        (Except.ok alloc_id, apply_issue_firearm db req now alloc_id)

/-- State change of `return_firearm`: close the allocation row and set the
firearm's status back to `available`. -/
def apply_return_firearm (db : DB) (allocation_id firearm_id : String)
    (now : Int) : DB :=
  { db with
    firearm_allocations := db.firearm_allocations.map fun a =>
      if a.id == allocation_id then
        { a with return_date := some now, status := "returned" }
      else a,
    firearms := db.firearms.map fun f =>
      if f.id == firearm_id then { f with status := "available" } else f }

/-- firearm_allocation.rs `return_firearm`: look the allocation up, close it,
mark the firearm available.  No check that the allocation is still active. -/
def return_firearm (db : DB) (allocation_id : String) (now : Int) :
    Except AppError Unit × DB :=
  if allocation_id = "" then
    (Except.error (AppError.BadRequest "Allocation ID is required"), db)
  else
    match db.firearm_allocations.find? (fun a => a.id == allocation_id) with
    | none => (Except.error (AppError.NotFound "Allocation not found"), db)
    | some allocation =>
      (Except.ok (), apply_return_firearm db allocation_id allocation.firearm_id now)

/-- armored_cars.rs `issue_car`: inserts the active car allocation and sets the
car's status to `allocated`.  The handler performs no availability check, no
existence check and has no force parameter. -/
def issue_car (db : DB) (req : IssueCarRequest) (now : Int) (alloc_id : String) :
    Except AppError String × DB :=
  (Except.ok alloc_id,
    { db with
      car_allocations := db.car_allocations ++
        [{ id := alloc_id, car_id := req.car_id, client_id := req.client_id,
           allocation_date := now, return_date := none,
           expected_return_date := req.expected_return_date,
           status := "active", notes := req.notes }],
      armored_cars := db.armored_cars.map fun c =>
        if c.id == req.car_id then { c with status := "allocated" } else c })

/-- armored_cars.rs `return_car`: close the allocation, mark the car available.
No check that the allocation is still active. -/
def return_car (db : DB) (allocation_id : String) (now : Int) :
    Except AppError Unit × DB :=
  match db.car_allocations.find? (fun a => a.id == allocation_id) with
  | none => (Except.error (AppError.NotFound "Allocation not found"), db)
  | some allocation =>
    (Except.ok (),
      { db with
        car_allocations := db.car_allocations.map fun a =>
          if a.id == allocation_id then
            { a with return_date := some now, status := "returned" }
          else a,
        armored_cars := db.armored_cars.map fun c =>
          if c.id == allocation.car_id then { c with status := "available" } else c })

/-- guard_replacement.rs `create_shift`: reject empty fields, require the guard
to exist, then insert the shift in state `scheduled`.  The handler performs no
`start_time < end_time` check and no overlapping-shift check. -/
def create_shift (db : DB) (req : CreateShiftRequest) (shift_id : String) :
    Except AppError String × DB :=
  if req.guard_id = "" ∨ req.client_site = "" then
    (Except.error (AppError.BadRequest "All fields are required"), db)
  else if user_exists db req.guard_id = false then
    (Except.error (AppError.NotFound "Guard not found"), db)
  else
    (Except.ok shift_id,
      { db with shifts := db.shifts ++
          [{ id := shift_id, guard_id := req.guard_id,
             start_time := req.start_time, end_time := req.end_time,
             client_site := req.client_site, status := "scheduled",
             grace_period_minutes := none, replacement_status := none }] })

/-- merit.rs `submit_client_evaluation`: reject a rating outside `[0, 5]` with
`BadRequest` before inserting, otherwise insert the evaluation row. -/
def submit_client_evaluation (db : DB) (req : CreateClientEvaluationRequest)
    (eval_id : String) : Except AppError String × DB :=
  if req.rating < 0 ∨ req.rating > 5 then
    (Except.error (AppError.BadRequest "Rating must be between 0 and 5"), db)
  else
    (Except.ok eval_id,
      { db with client_evaluations := db.client_evaluations ++
          [{ id := eval_id, guard_id := req.guard_id, shift_id := req.shift_id,
             mission_id := req.mission_id, evaluator_name := req.evaluator_name,
             evaluator_role := req.evaluator_role, rating := req.rating,
             comment := req.comment }] })

/-- guard_replacement.rs `accept_replacement`: require the guard and the shift
to exist, then unconditionally reassign the shift to the accepting guard and
set `replacement_status = 'accepted'`, marking the given notification and all
pending replacement notifications for the shift as read.  The handler selects
the shift's `replacement_status` but never inspects it. -/
def accept_replacement (db : DB) (guard_id shift_id : String)
    (notification_id : Option String) : Except AppError Unit × DB :=
  if user_exists db guard_id = false then
    (Except.error (AppError.NotFound "Guard not found"), db)
  else if (db.shifts.any fun s => s.id == shift_id) = false then
    (Except.error (AppError.NotFound "Shift not found"), db)
  else
    let db1 : DB :=
      { db with shifts := db.shifts.map fun s =>
          if s.id == shift_id then
            { s with guard_id := guard_id, replacement_status := some "accepted" }
          else s }
    let db2 : DB :=
      match notification_id with
      | some nid =>
        { db1 with notifications := db1.notifications.map fun n =>
            if n.id == nid then { n with read := true } else n }
      | none => db1
    (Except.ok (),
      { db2 with notifications := db2.notifications.map fun n =>
          if n.related_shift_id == some shift_id && n.ntype == "replacement_request" &&
              n.read == false then
            { n with read := true }
          else n })

/-- Selection query of `detect_no_shows` (guard_replacement.rs step 1): shifts
in state `scheduled` with no attendance row, whose start time plus the grace
period (`COALESCE(grace_period_minutes, 15)`, timestamps in minutes) has
passed, and whose `COALESCE(replacement_status, 'not_needed')` is still
`not_needed`. -/
def no_show_shifts (db : DB) (now : Int) : List Shift :=
  db.shifts.filter fun s =>
    !(db.attendance.any fun a => a.shift_id == s.id) &&
    s.status == "scheduled" &&
    decide (s.start_time + s.grace_period_minutes.getD 15 ≤ now) &&
    s.replacement_status.getD "not_needed" == "not_needed"

/-- The `LEFT JOIN guard_availability` condition of the candidate query:
true when the guard has no availability row or its `available` flag is true. -/
def availability_flag (db : DB) (guard_id : String) : Bool :=
  match db.guard_availability.find? (fun ga => ga.guard_id == guard_id) with
  | none => true
  | some ga => ga.available

/-- The `NOT EXISTS` subquery of the candidate search: some shift of the guard
in `{scheduled, in_progress}` with `start_time <= target.end_time` and
`end_time >= target.start_time`. -/
def has_blocking_shift (shifts : List Shift) (guard_id : String)
    (target : Shift) : Bool :=
  shifts.any fun s2 =>
    s2.guard_id == guard_id &&
    (s2.status == "scheduled" || s2.status == "in_progress") &&
    decide (s2.start_time ≤ target.end_time) &&
    decide (s2.end_time ≥ target.start_time)

/-- Candidate query of `detect_no_shows` step 2: verified users with role
`user` other than the original guard, not explicitly unavailable, with no
blocking shift, capped at 20 (`LIMIT 20`). -/
def eligible_guards (db : DB) (target : Shift) : List User :=
  (db.users.filter fun u =>
    u.id != target.guard_id &&
    u.role == "user" &&
    u.verified &&
    availability_flag db u.id &&
    !(has_blocking_shift db.shifts u.id target)).take 20

/-- The replacement notification inserted for one candidate (detect_no_shows
step 3).  `gen` stands for `utils::generate_id`, keyed here by the shift and
candidate so the supply is a plain function. -/
def replacement_notification (gen : String → String → String) (target : Shift)
    (g : User) : Notification :=
  { id := gen target.id g.id, user_id := g.id,
    title := "Replacement Needed - Urgent",
    message := "Guard no-show detected at " ++ target.client_site,
    ntype := "replacement_request", related_shift_id := some target.id,
    read := false }

/-- The `UPDATE shifts SET replacement_status = 'searching' WHERE id = $1`
statement of the detector loop. -/
def mark_searching (shifts : List Shift) (shift_id : String) : List Shift :=
  shifts.map fun s =>
    if s.id == shift_id then { s with replacement_status := some "searching" }
    else s

/-- One iteration of the detector loop: mark the shift `searching`, then
insert one notification per eligible candidate (candidates are queried against
the state after the mark, as in the source). -/
def process_no_show (gen : String → String → String) (db : DB)
    (target : Shift) : DB :=
  let db1 : DB := { db with shifts := mark_searching db.shifts target.id }
  { db1 with notifications := db1.notifications ++
      (eligible_guards db1 target).map (replacement_notification gen target) }

/-- guard_replacement.rs `detect_no_shows`: snapshot the overdue shifts, then
process each in order. -/
def detect_no_shows (gen : String → String → String) (db : DB) (now : Int) : DB :=
  (no_show_shifts db now).foldl (process_no_show gen) db

/-- merit.rs: `COUNT(CASE WHEN status = 'completed' ...)` over the guard's
attendance rows. -/
def completed_attendance (db : DB) (guard_id : String) : Nat :=
  (db.attendance.filter fun a => a.guard_id == guard_id && a.status == "completed").length

/-- merit.rs: `COUNT(*)` over the guard's shifts. -/
def total_shifts (db : DB) (guard_id : String) : Nat :=
  (db.shifts.filter fun s => s.guard_id == guard_id).length

/-- merit.rs attendance score: completed attendance over total shifts × 100,
zero when the guard has no shifts. -/
def attendance_score (db : DB) (guard_id : String) : ℚ :=
  if total_shifts db guard_id > 0 then
    (completed_attendance db guard_id : ℚ) / (total_shifts db guard_id : ℚ) * 100
  else 0

/-- merit.rs: count of the guard's punctuality records with `is_on_time`. -/
def on_time_count (db : DB) (guard_id : String) : Nat :=
  (db.punctuality_records.filter fun p => p.guard_id == guard_id && p.is_on_time).length

/-- merit.rs: count of all the guard's punctuality records. -/
def total_punctuality_records (db : DB) (guard_id : String) : Nat :=
  (db.punctuality_records.filter fun p => p.guard_id == guard_id).length

/-- merit.rs punctuality score: on-time count over total records × 100, zero
when there are none. -/
def punctuality_score (db : DB) (guard_id : String) : ℚ :=
  if total_punctuality_records db guard_id > 0 then
    (on_time_count db guard_id : ℚ) / (total_punctuality_records db guard_id : ℚ) * 100
  else 0

/-- The guard's evaluation rows. -/
def evaluations_of (db : DB) (guard_id : String) : List ClientEvaluation :=
  db.client_evaluations.filter fun e => e.guard_id == guard_id

/-- merit.rs: `AVG(rating)` over the guard's evaluations (`NULL` when none). -/
def avg_rating (db : DB) (guard_id : String) : Option ℚ :=
  let es := evaluations_of db guard_id
  if es.length = 0 then none
  else some (((es.map ClientEvaluation.rating).sum) / (es.length : ℚ))

/-- merit.rs client rating: the 0–5 average converted to 0–100, zero when the
guard has no evaluations. -/
def client_rating (db : DB) (guard_id : String) : ℚ :=
  match avg_rating db guard_id with
  | some avg => avg / 5 * 100
  | none => 0

/-- merit.rs overall score: 30% attendance, 35% punctuality, 35% client rating. -/
def overall_score (db : DB) (guard_id : String) : ℚ :=
  attendance_score db guard_id * (30 / 100) +
  punctuality_score db guard_id * (35 / 100) +
  client_rating db guard_id * (35 / 100)

/-- merit.rs rank thresholds on the (unclamped) overall score. -/
def merit_rank (db : DB) (guard_id : String) : String :=
  let score := overall_score db guard_id
  if score ≥ 90 then "Gold"
  else if score ≥ 80 then "Silver"
  else if score ≥ 70 then "Bronze"
  else "Standard"

/-- The `.min(100.0).max(0.0)` clamp applied to every score field of the
`MeritScoreResponse`. -/
def clamp_score (x : ℚ) : ℚ := max (min x 100) 0

/-- The score fields of merit.rs's `MeritScoreResponse` (stats omitted). -/
structure MeritScoreResponse where
  guard_id : String
  overall_score : ℚ
  rank : String
  attendance_score : ℚ
  punctuality_score : ℚ
  client_rating : ℚ
  deriving DecidableEq, Repr

/-- merit.rs `calculate_merit_score`, restricted to the response it computes
(the upsert into `guard_merit_scores` stores the same numbers and is not read
by any embedded claim). -/
def calculate_merit_score (db : DB) (guard_id : String) : MeritScoreResponse :=
  { guard_id := guard_id,
    overall_score := clamp_score (overall_score db guard_id),
    rank := merit_rank db guard_id,
    attendance_score := clamp_score (attendance_score db guard_id),
    punctuality_score := clamp_score (punctuality_score db guard_id),
    client_rating := clamp_score (client_rating db guard_id) }

/-- Guard selection of `assign_mission` step 1: verified users with role
`user`, `LIMIT guards_required`. -/
def mission_guards (db : DB) (n : Nat) : List User :=
  (db.users.filter fun u => u.role == "user" && u.verified).take n

/-- Firearm selection of `assign_mission` step 2: firearms with status
`available`, `LIMIT firearms_required`. -/
def mission_firearms (db : DB) (n : Nat) : List Firearm :=
  (db.firearms.filter fun f => f.status == "available").take n

/-- Vehicle selection of `assign_mission` step 3: armored cars with status
`operational`, `LIMIT vehicles_required`. -/
def mission_vehicles (db : DB) (n : Nat) : List ArmoredCar :=
  (db.armored_cars.filter fun c => c.status == "operational").take n

/-- Shift rows created by `assign_mission` step 4, one per selected guard. -/
def mission_shift_rows (gen : Nat → String) (req : MissionAssignmentRequest) :
    Nat → List User → List Shift
  | _, [] => []
  | i, g :: rest =>
    { id := gen i, guard_id := g.id, start_time := req.start_time,
      end_time := req.end_time, client_site := req.destination,
      status := "scheduled", grace_period_minutes := none,
      replacement_status := none } :: mission_shift_rows gen req (i + 1) rest

/-- Allocation rows created by `assign_mission` step 5: firearm `i` is paired
with guard `i` (`guards.get(i)`), so the pairs are exactly `firearms.zip
guards`; `allocation_date` is bound to the mission start time. -/
def mission_alloc_rows (gen : Nat → String) (start : Int) :
    Nat → List (Firearm × User) → List FirearmAllocation
  | _, [] => []
  | i, (f, g) :: rest =>
    { id := gen i, guard_id := g.id, firearm_id := f.id,
      allocation_date := start, return_date := none, status := "active",
      issued_by := none, expected_return_date := none, notes := none } ::
      mission_alloc_rows gen start (i + 1) rest

/-- Trip rows created by `assign_mission` step 6, one per selected vehicle,
with the first selected guard as driver. -/
def mission_trip_rows (gen : Nat → String) (req : MissionAssignmentRequest)
    (driver : String) : Nat → List ArmoredCar → List Trip
  | _, [] => []
  | i, v :: rest =>
    { id := gen i, car_id := v.id, driver_id := driver,
      start_time := req.start_time, end_time := req.end_time,
      destination := req.destination, status := "scheduled" } ::
      mission_trip_rows gen req driver (i + 1) rest

/-- State change of a successful `assign_mission`: the created shifts,
firearm allocations (with each paired firearm's status set to `allocated`)
and trips. -/
def apply_assign_mission (db : DB) (req : MissionAssignmentRequest)
    (genS genA genT : Nat → String) : DB :=
  let guards := mission_guards db req.guards_required
  let firearms := mission_firearms db req.firearms_required
  let vehicles := mission_vehicles db req.vehicles_required
  let pairs := firearms.zip guards
  { db with
    shifts := db.shifts ++ mission_shift_rows genS req 0 guards,
    firearm_allocations := db.firearm_allocations ++
      mission_alloc_rows genA req.start_time 0 pairs,
    firearms := db.firearms.map fun f =>
      if pairs.any (fun p => p.1.id == f.id) then { f with status := "allocated" }
      else f,
    trips := db.trips ++
      mission_trip_rows genT req ((guards.head?.map User.id).getD "") 0 vehicles }

/-- missions.rs `assign_mission`: query availability of all three resource
types first, abort with an insufficiency error if any falls short of the
requested count, otherwise create all shifts, firearm allocations and trips. -/
def assign_mission (db : DB) (req : MissionAssignmentRequest)
    (genS genA genT : Nat → String) : Except AppError Unit × DB :=
  let guards := mission_guards db req.guards_required
  if guards.length < req.guards_required then
    (Except.error (AppError.BadRequest
      ("Insufficient guards available. Requested: " ++
        toString req.guards_required ++ ", Available: " ++
        toString guards.length)), db)
  else
    let firearms := mission_firearms db req.firearms_required
    if firearms.length < req.firearms_required then
      (Except.error (AppError.BadRequest
        ("Insufficient firearms available. Requested: " ++
          toString req.firearms_required ++ ", Available: " ++
          toString firearms.length)), db)
    else
      let vehicles := mission_vehicles db req.vehicles_required
      if vehicles.length < req.vehicles_required then
        (Except.error (AppError.BadRequest
          ("Insufficient vehicles available. Requested: " ++
            toString req.vehicles_required ++ ", Available: " ++
            toString vehicles.length)), db)
      else
        (Except.ok (), apply_assign_mission db req genS genA genT)

/-- An open allocation record in the sense of the spec: references the unit,
`status = 'active'`, `return_date` null. -/
def is_open_firearm_alloc_for (firearm_id : String) (a : FirearmAllocation) : Bool :=
  a.firearm_id == firearm_id && a.status == "active" && a.return_date == none

/-- Number of open allocation records referencing a firearm in a list of
allocation rows. -/
def open_count (allocs : List FirearmAllocation) (firearm_id : String) : Nat :=
  (allocs.filter (is_open_firearm_alloc_for firearm_id)).length

/-- Number of open allocation records referencing a firearm. -/
def open_firearm_allocs (db : DB) (firearm_id : String) : Nat :=
  open_count db.firearm_allocations firearm_id

/-- An open car allocation record: references the car, `status = 'active'`,
`return_date` null. -/
def is_open_car_alloc_for (car_id : String) (a : CarAllocation) : Bool :=
  a.car_id == car_id && a.status == "active" && a.return_date == none

/-- Number of open car allocation records referencing an armored car. -/
def open_car_allocs (db : DB) (car_id : String) : Nat :=
  (db.car_allocations.filter (is_open_car_alloc_for car_id)).length

/-- The spec §3 resource-unit invariant for firearms: every firearm is
referenced by at most one open allocation, and its status is `allocated`
exactly when one open allocation exists. -/
def FirearmUnitInvariant (db : DB) : Prop :=
  ∀ f ∈ db.firearms, open_firearm_allocs db f.id ≤ 1 ∧
    (f.status = "allocated" ↔ open_firearm_allocs db f.id = 1)

/-- Primary-key uniqueness of the two firearm tables (enforced by the `id
VARCHAR(36) PRIMARY KEY` columns of db.rs). -/
def FirearmKeysNodup (db : DB) : Prop :=
  (db.firearms.map Firearm.id).Nodup ∧
  (db.firearm_allocations.map FirearmAllocation.id).Nodup

/-- The full inductive invariant for the firearm-allocation subsystem. -/
def AllocInv (db : DB) : Prop :=
  FirearmKeysNodup db ∧ FirearmUnitInvariant db

/-- One exposed allocation operation, as restricted by the amended claim C1:
firearm issuance without the force override and with a fresh allocation key,
firearm return of a still-open allocation, mission assignment with fresh
allocation keys, and the two car operations (which do not touch the firearm
tables). -/
inductive AllocStep : DB → DB → Prop where
  | issueF (db : DB) (req : IssueFirearmRequest) (now : Int) (aid : String)
      (hforce : req.force.getD false = false)
      (hfresh : aid ∉ db.firearm_allocations.map FirearmAllocation.id) :
      AllocStep db (issue_firearm db req now aid).2
  | returnF (db : DB) (aid : String) (now : Int) (a : FirearmAllocation)
      (hfind : db.firearm_allocations.find? (fun x => x.id == aid) = some a)
      (hactive : a.status = "active") (hopen : a.return_date = none) :
      AllocStep db (return_firearm db aid now).2
  | mission (db : DB) (req : MissionAssignmentRequest)
      (genS genA genT : Nat → String)
      (hfresh : ∀ i, genA i ∉ db.firearm_allocations.map FirearmAllocation.id)
      (hinj : ∀ i j, genA i = genA j → i = j) :
      AllocStep db (assign_mission db req genS genA genT).2
  | issueC (db : DB) (req : IssueCarRequest) (now : Int) (aid : String) :
      AllocStep db (issue_car db req now aid).2
  | returnC (db : DB) (aid : String) (now : Int) :
      AllocStep db (return_car db aid now).2

/-- Reflexive-transitive closure of `AllocStep`. -/
inductive AllocReachable : DB → DB → Prop where
  | refl (db : DB) : AllocReachable db db
  | step (db₁ db₂ db₃ : DB) : AllocReachable db₁ db₂ → AllocStep db₂ db₃ →
      AllocReachable db₁ db₃

deriving instance DecidableEq for Except

instance decidableFirearmUnitInvariant (db : DB) :
    Decidable (FirearmUnitInvariant db) := by
  unfold FirearmUnitInvariant
  infer_instance

instance decidableFirearmKeysNodup (db : DB) : Decidable (FirearmKeysNodup db) := by
  unfold FirearmKeysNodup
  infer_instance

instance decidableAllocInv (db : DB) : Decidable (AllocInv db) := by
  unfold AllocInv
  infer_instance

/-- Test state for the C1 counterexample: one available armored car, no
allocations. -/
def c1_db : DB := { emptyDB with armored_cars := [⟨"car1", "available"⟩] }

/-- Car issuance request used by the C1 counterexample. -/
def c1_req : IssueCarRequest := ⟨"car1", "client1", none, none⟩

/-- Test state for the C1 witness: one guard with a valid permit and current
training, one available firearm. -/
def c1_wdb : DB := { emptyDB with
  users := [⟨"g1", "guard1", none, "user", true⟩],
  firearms := [⟨"f1", "available"⟩],
  guard_firearm_permits := [⟨"p1", "g1", "active", 100⟩],
  training_records := [⟨"t1", "g1", "firearms_handling", "valid", none⟩] }

/-- Firearm issuance request used by the C1 witness (no force flag). -/
def c1_wreq : IssueFirearmRequest := ⟨"f1", "g1", none, none, none, none⟩

/-- Test state for C2: a shift whose replacement was already accepted (assigned
to g1), and a second guard g2. -/
def c2_db : DB := { emptyDB with
  users := [⟨"g1", "guard1", none, "user", true⟩, ⟨"g2", "guard2", none, "user", true⟩],
  shifts := [⟨"s1", "g1", 540, 1020, "SiteA", "scheduled", none, some "accepted"⟩] }

/-- Test state for the C3 witness, the spec §8 scenario: three verified guards,
one available firearm (two requested), one operational vehicle. -/
def c3_wdb : DB := { emptyDB with
  users := [⟨"g1", "guard1", none, "user", true⟩, ⟨"g2", "guard2", none, "user", true⟩,
            ⟨"g3", "guard3", none, "user", true⟩],
  firearms := [⟨"f1", "available"⟩],
  armored_cars := [⟨"v1", "operational"⟩] }

/-- Mission request of the spec §8 scenario: 3 guards, 2 firearms, 1 vehicle. -/
def c3_wreq : MissionAssignmentRequest :=
  ⟨"Escort", 3, 1, 2, 540, 1020, "Downtown"⟩

/-- Test state for the C4 counterexample: a car that is already allocated. -/
def c4_db : DB := { emptyDB with armored_cars := [⟨"car1", "allocated"⟩] }

/-- Test state for the C4 witness: an allocated firearm (so non-forced issuance
must fail) next to an available one. -/
def c4_wdb : DB := { emptyDB with
  users := [⟨"g1", "guard1", none, "user", true⟩],
  firearms := [⟨"f1", "allocated"⟩] }

/-- Test state for C5, the spec §8 scenario: guard G with 10 shifts, 8
completed attendance records, 9 on-time punctuality records out of 9, and 4
client evaluations of rating 4.5 each. -/
def c5_db : DB := { emptyDB with
  shifts :=
    [⟨"s1", "G", 0, 480, "Site", "completed", none, none⟩,
     ⟨"s2", "G", 0, 480, "Site", "completed", none, none⟩,
     ⟨"s3", "G", 0, 480, "Site", "completed", none, none⟩,
     ⟨"s4", "G", 0, 480, "Site", "completed", none, none⟩,
     ⟨"s5", "G", 0, 480, "Site", "completed", none, none⟩,
     ⟨"s6", "G", 0, 480, "Site", "completed", none, none⟩,
     ⟨"s7", "G", 0, 480, "Site", "completed", none, none⟩,
     ⟨"s8", "G", 0, 480, "Site", "completed", none, none⟩,
     ⟨"s9", "G", 0, 480, "Site", "completed", none, none⟩,
     ⟨"s10", "G", 0, 480, "Site", "completed", none, none⟩],
  attendance :=
    [⟨"a1", "G", "s1", 0, some 480, "completed"⟩,
     ⟨"a2", "G", "s2", 0, some 480, "completed"⟩,
     ⟨"a3", "G", "s3", 0, some 480, "completed"⟩,
     ⟨"a4", "G", "s4", 0, some 480, "completed"⟩,
     ⟨"a5", "G", "s5", 0, some 480, "completed"⟩,
     ⟨"a6", "G", "s6", 0, some 480, "completed"⟩,
     ⟨"a7", "G", "s7", 0, some 480, "completed"⟩,
     ⟨"a8", "G", "s8", 0, some 480, "completed"⟩],
  punctuality_records :=
    [⟨"p1", "G", true, "present"⟩, ⟨"p2", "G", true, "present"⟩,
     ⟨"p3", "G", true, "present"⟩, ⟨"p4", "G", true, "present"⟩,
     ⟨"p5", "G", true, "present"⟩, ⟨"p6", "G", true, "present"⟩,
     ⟨"p7", "G", true, "present"⟩, ⟨"p8", "G", true, "present"⟩,
     ⟨"p9", "G", true, "present"⟩],
  client_evaluations :=
    [⟨"e1", "G", none, none, "Client", none, 9 / 2, none⟩,
     ⟨"e2", "G", none, none, "Client", none, 9 / 2, none⟩,
     ⟨"e3", "G", none, none, "Client", none, 9 / 2, none⟩,
     ⟨"e4", "G", none, none, "Client", none, 9 / 2, none⟩] }

/-- Test state for the C8 counterexample: guard g1 with an existing scheduled
shift over the window [0, 100). -/
def c8_db : DB := { emptyDB with
  users := [⟨"g1", "guard1", none, "user", true⟩],
  shifts := [⟨"s0", "g1", 0, 100, "SiteA", "scheduled", none, none⟩] }

/-- Test state for the C8 witness: one guard, no shifts. -/
def c8_wdb : DB := { emptyDB with users := [⟨"g1", "guard1", none, "user", true⟩] }

/-- Test state for the C9 witness: an available firearm and a guard with an
active permit but no firearms_handling training. -/
def c9_wdb : DB := { emptyDB with
  users := [⟨"g1", "guard1", none, "user", true⟩],
  firearms := [⟨"f1", "available"⟩],
  guard_firearm_permits := [⟨"p1", "g1", "active", 100⟩] }

/-- Relation between the state a detector run started from and an
intermediate state of its loop: the tables the candidate query reads are
unchanged, and the blocking-shift subquery answers the same (the loop only
flips `replacement_status`, which that query ignores). -/
def SameSkeleton (db₀ db : DB) : Prop :=
  db.users = db₀.users ∧ db.guard_availability = db₀.guard_availability ∧
  ∀ gid target, has_blocking_shift db.shifts gid target =
    has_blocking_shift db₀.shifts gid target

/-- Every shift row carrying this id has been moved to `searching`. -/
def MarkedSearching (db : DB) (sid : String) : Prop :=
  ∀ s' ∈ db.shifts, s'.id = sid → s'.replacement_status = some "searching"

/-- Test state for the C6 witness: one overdue scheduled shift of g1 with no
check-in, and a free verified guard g2. -/
def c6_wdb : DB := { emptyDB with
  users := [⟨"g1", "guard1", none, "user", true⟩, ⟨"g2", "guard2", none, "user", true⟩],
  shifts := [⟨"s1", "g1", 0, 480, "SiteA", "scheduled", none, none⟩] }

/-- Notification id supply used by the C6 witness. -/
def c6_gen : String → String → String := fun a b => "n-" ++ a ++ "-" ++ b

/-- Test state for the C7 witness: same shape as the C6 one. -/
def c7_wdb : DB := { emptyDB with
  users := [⟨"g1", "guard1", none, "user", true⟩, ⟨"g2", "guard2", none, "user", true⟩],
  shifts := [⟨"s1", "g1", 0, 480, "SiteA", "scheduled", none, none⟩] }

/-- Notification id supply used by the C7 witness. -/
def c7_gen : String → String → String := fun a b => "m-" ++ a ++ "-" ++ b

lemma map_id_of_status_update (l : List Firearm) (p : Firearm → Bool) (s : String) :
    (l.map fun f => if p f then { f with status := s } else f).map Firearm.id =
      l.map Firearm.id := by
  induction l with
  | nil => rfl
  | cons a t ih => by_cases h : p a <;> simp [h, ih]

lemma open_count_append (l₁ l₂ : List FirearmAllocation) (fid : String) :
    open_count (l₁ ++ l₂) fid = open_count l₁ fid + open_count l₂ fid := by
  simp [open_count, List.filter_append]

lemma open_count_singleton (a : FirearmAllocation) (fid : String)
    (hs : a.status = "active") (hr : a.return_date = none) :
    open_count [a] fid = if a.firearm_id = fid then 1 else 0 := by
  by_cases h : a.firearm_id = fid
  · have hb : (a.firearm_id == fid) = true := by simp [h]
    simp [open_count, is_open_firearm_alloc_for, List.filter, h, hb, hs, hr]
  · have hb : (a.firearm_id == fid) = false := by simp [h]
    simp [open_count, is_open_firearm_alloc_for, List.filter, h, hb, hs, hr]

lemma status_available_count_zero (db : DB) (f : Firearm)
    (hmem : f ∈ db.firearms) (hunit : FirearmUnitInvariant db)
    (havail : f.status = "available") : open_firearm_allocs db f.id = 0 := by
  rcases hunit f hmem with ⟨hle, hiff⟩
  have h1 : open_firearm_allocs db f.id ≠ 1 := by
    intro h
    have := hiff.mpr h
    rw [havail] at this
    exact absurd this (by decide)
  omega

lemma allocInv_apply_issue (db : DB) (req : IssueFirearmRequest) (now : Int)
    (aid : String) (hinv : AllocInv db)
    (hfresh : aid ∉ db.firearm_allocations.map FirearmAllocation.id)
    (fa : Firearm) (hmem : fa ∈ db.firearms) (hid : fa.id = req.firearm_id)
    (havail : fa.status = "available") :
    AllocInv (apply_issue_firearm db req now aid) := by
  obtain ⟨⟨hndF, hndA⟩, hunit⟩ := hinv
  have hcount : ∀ fid, open_firearm_allocs (apply_issue_firearm db req now aid) fid =
      open_firearm_allocs db fid + (if req.firearm_id = fid then 1 else 0) := by
    intro fid
    show open_count (db.firearm_allocations ++ [_]) fid = _
    rw [open_count_append, open_count_singleton _ _ rfl rfl]
    rfl
  refine ⟨⟨?_, ?_⟩, ?_⟩
  · show ((db.firearms.map fun f =>
      if f.id == req.firearm_id then { f with status := "allocated" } else f).map
        Firearm.id).Nodup
    rw [map_id_of_status_update]
    exact hndF
  · show ((db.firearm_allocations ++ [_]).map FirearmAllocation.id).Nodup
    rw [List.map_append, List.nodup_append]
    refine ⟨hndA, List.nodup_singleton _, ?_⟩
    intro x hx hx'
    simp only [List.map_cons, List.map_nil, List.mem_singleton] at hx'
    subst hx'
    exact hfresh hx
  · intro f' hf'
    rw [show (apply_issue_firearm db req now aid).firearms =
      db.firearms.map (fun f =>
        if f.id == req.firearm_id then { f with status := "allocated" } else f) from rfl,
      List.mem_map] at hf'
    obtain ⟨f, hf, rfl⟩ := hf'
    by_cases hfi : f.id = req.firearm_id
    · have hfe : f = fa := by
        apply List.inj_on_of_nodup_map hndF hf hmem
        rw [hfi, hid]
      subst hfe
      have hc0 : open_firearm_allocs db f.id = 0 :=
        status_available_count_zero db f hf hunit havail
      have hsel : (f.id == req.firearm_id) = true := by simp [hfi]
      rw [hsel, if_pos rfl]
      have hcnt : open_firearm_allocs (apply_issue_firearm db req now aid)
          ({ f with status := "allocated" } : Firearm).id = 1 := by
        show open_firearm_allocs _ f.id = 1
        rw [hcount f.id, hc0, if_pos hfi.symm]
      rw [hcnt]
      simp
    · have hsel : (f.id == req.firearm_id) = false := by simp [hfi]
      rw [hsel]
      simp only [Bool.false_eq_true, if_false]
      have hcnt : open_firearm_allocs (apply_issue_firearm db req now aid) f.id =
          open_firearm_allocs db f.id := by
        rw [hcount f.id, if_neg (fun h => hfi h.symm)]
        omega
      rw [hcnt]
      exact hunit f hf


lemma allocInv_issue_firearm (db : DB) (req : IssueFirearmRequest) (now : Int)
    (aid : String) (hforce : req.force.getD false = false)
    (hfresh : aid ∉ db.firearm_allocations.map FirearmAllocation.id)
    (hinv : AllocInv db) : AllocInv (issue_firearm db req now aid).2 := by
  unfold issue_firearm
  split
  · exact hinv
  · cases hfind : db.firearms.find? (fun f => f.id == req.firearm_id) with
    | none => exact hinv
    | some fa =>
      have hmem : fa ∈ db.firearms := List.mem_of_find?_eq_some hfind
      have hid : fa.id = req.firearm_id := by
        have := List.find?_some hfind
        simpa using this
      simp only [hforce]
      split
      · exact hinv
      · split
        · exact hinv
        · split
          · exact hinv
          · split
            · exact hinv
            · rename_i hna _ _ _
              have havail : fa.status = "available" := by
                by_contra hne
                exact hna ⟨by simp, hne⟩
              exact allocInv_apply_issue db req now aid ⟨⟨hinv.1.1, hinv.1.2⟩, hinv.2⟩
                hfresh fa hmem hid havail

lemma map_id_of_close_update (l : List FirearmAllocation) (aid : String) (now : Int) :
    (l.map fun x =>
      if x.id == aid then { x with return_date := some now, status := "returned" }
      else x).map FirearmAllocation.id = l.map FirearmAllocation.id := by
  induction l with
  | nil => rfl
  | cons a t ih =>
    simp only [List.map_cons]
    rw [ih]
    congr 1
    split <;> rfl

lemma map_fix_of_ne (l : List FirearmAllocation) (aid : String) (now : Int)
    (h : ∀ x ∈ l, x.id ≠ aid) :
    (l.map fun x =>
      if x.id == aid then { x with return_date := some now, status := "returned" }
      else x) = l := by
  induction l with
  | nil => rfl
  | cons a t ih =>
    have hb : (a.id == aid) = false := by simp [h a (List.mem_cons_self a t)]
    simp only [List.map_cons, hb, Bool.false_eq_true, if_false]
    rw [ih fun x hx => h x (List.mem_cons_of_mem a hx)]

lemma open_count_middle (l₁ l₂ : List FirearmAllocation) (x : FirearmAllocation)
    (fid : String) :
    open_count (l₁ ++ x :: l₂) fid = open_count l₁ fid +
      (if is_open_firearm_alloc_for fid x then 1 else 0) + open_count l₂ fid := by
  by_cases h : is_open_firearm_alloc_for fid x = true <;>
    simp [open_count, List.filter_append, List.filter_cons, h] <;> omega

lemma allocInv_apply_return (db : DB) (aid : String) (now : Int)
    (a : FirearmAllocation) (hmem : a ∈ db.firearm_allocations) (haid : a.id = aid)
    (hactive : a.status = "active") (hopen : a.return_date = none)
    (hinv : AllocInv db) :
    AllocInv (apply_return_firearm db aid a.firearm_id now) := by
  obtain ⟨⟨hndF, hndA⟩, hunit⟩ := hinv
  obtain ⟨s, t, hst⟩ := List.append_of_mem hmem
  have hnd' : ((s ++ a :: t).map FirearmAllocation.id).Nodup := by rw [← hst]; exact hndA
  have hnotin : a.id ∉ s.map FirearmAllocation.id ++ t.map FirearmAllocation.id := by
    have := (List.nodup_middle.mp (by simpa using hnd'))
    exact (List.nodup_cons.mp this).1
  have hs_ne : ∀ x ∈ s, x.id ≠ aid := by
    intro x hx he
    exact hnotin (List.mem_append_left _ (by
      rw [haid, ← he]; exact List.mem_map_of_mem FirearmAllocation.id hx))
  have ht_ne : ∀ x ∈ t, x.id ≠ aid := by
    intro x hx he
    exact hnotin (List.mem_append_right _ (by
      rw [haid, ← he]; exact List.mem_map_of_mem FirearmAllocation.id hx))
  have hmap : (apply_return_firearm db aid a.firearm_id now).firearm_allocations =
      s ++ ({ a with return_date := some now, status := "returned" } : FirearmAllocation) :: t := by
    show db.firearm_allocations.map _ = _
    rw [hst, List.map_append, List.map_cons, map_fix_of_ne s aid now hs_ne,
      map_fix_of_ne t aid now ht_ne]
    simp [haid]
  have hnew : ∀ fid, open_firearm_allocs (apply_return_firearm db aid a.firearm_id now) fid =
      open_count s fid + open_count t fid := by
    intro fid
    show open_count _ fid = _
    rw [hmap, open_count_middle]
    have : is_open_firearm_alloc_for fid
        ({ a with return_date := some now, status := "returned" } : FirearmAllocation) = false := by
      simp [is_open_firearm_alloc_for]
    rw [this]
    simp
  have hold : ∀ fid, open_firearm_allocs db fid =
      open_count s fid + open_count t fid + (if a.firearm_id = fid then 1 else 0) := by
    intro fid
    show open_count db.firearm_allocations fid = _
    rw [hst, open_count_middle]
    have hsum : (if is_open_firearm_alloc_for fid a then (1 : ℕ) else 0) =
        (if a.firearm_id = fid then 1 else 0) := by
      by_cases h : a.firearm_id = fid <;>
        simp [is_open_firearm_alloc_for, hactive, hopen, h]
    rw [hsum]
    omega
  refine ⟨⟨?_, ?_⟩, ?_⟩
  · show ((db.firearms.map fun f =>
      if f.id == a.firearm_id then { f with status := "available" } else f).map
        Firearm.id).Nodup
    rw [map_id_of_status_update]
    exact hndF
  · show ((db.firearm_allocations.map _).map FirearmAllocation.id).Nodup
    rw [map_id_of_close_update]
    exact hndA
  · intro f' hf'
    rw [show (apply_return_firearm db aid a.firearm_id now).firearms =
      db.firearms.map (fun f =>
        if f.id == a.firearm_id then { f with status := "available" } else f) from rfl,
      List.mem_map] at hf'
    obtain ⟨f, hf, rfl⟩ := hf'
    rcases hunit f hf with ⟨hle, hiff⟩
    by_cases hfi : f.id = a.firearm_id
    · have hsel : (f.id == a.firearm_id) = true := by simp [hfi]
      rw [hsel]
      simp only [if_true]
      have hone : open_firearm_allocs db f.id = 1 := by
        have := hold f.id
        rw [if_pos hfi.symm] at this
        omega
      have hzero : open_firearm_allocs (apply_return_firearm db aid a.firearm_id now)
          ({ f with status := "available" } : Firearm).id = 0 := by
        show open_firearm_allocs _ f.id = 0
        have h1 := hnew f.id
        have h2 := hold f.id
        rw [if_pos hfi.symm] at h2
        omega
      rw [hzero]
      refine ⟨by omega, ?_⟩
      constructor
      · intro h
        exact absurd h (by simp)
      · intro h
        exact absurd h (by simp)
    · have hsel : (f.id == a.firearm_id) = false := by simp [hfi]
      rw [hsel]
      simp only [Bool.false_eq_true, if_false]
      have hsame : open_firearm_allocs (apply_return_firearm db aid a.firearm_id now) f.id =
          open_firearm_allocs db f.id := by
        have h1 := hnew f.id
        have h2 := hold f.id
        rw [if_neg (fun h => hfi h.symm)] at h2
        omega
      rw [hsame]
      exact ⟨hle, hiff⟩

lemma allocInv_return_firearm (db : DB) (aid : String) (now : Int)
    (a : FirearmAllocation)
    (hfind : db.firearm_allocations.find? (fun x => x.id == aid) = some a)
    (hactive : a.status = "active") (hopen : a.return_date = none)
    (hinv : AllocInv db) : AllocInv (return_firearm db aid now).2 := by
  unfold return_firearm
  split
  · exact hinv
  · rw [hfind]
    have hmem : a ∈ db.firearm_allocations := List.mem_of_find?_eq_some hfind
    have haid : a.id = aid := by
      have := List.find?_some hfind
      simpa using this
    exact allocInv_apply_return db aid now a hmem haid hactive hopen hinv

lemma open_count_cons (x : FirearmAllocation) (l : List FirearmAllocation)
    (fid : String) :
    open_count (x :: l) fid =
      (if is_open_firearm_alloc_for fid x then 1 else 0) + open_count l fid := by
  by_cases h : is_open_firearm_alloc_for fid x = true
  · simp only [open_count, List.filter_cons, h, if_true, List.length_cons]
    omega
  · simp [open_count, List.filter_cons, h]

lemma mission_firearms_mem (db : DB) (n : Nat) :
    ∀ f ∈ mission_firearms db n, f ∈ db.firearms ∧ f.status = "available" := by
  intro f hf
  have h1 : f ∈ db.firearms.filter (fun f => f.status == "available") :=
    (List.take_sublist n _).subset hf
  rw [List.mem_filter] at h1
  exact ⟨h1.1, by simpa using h1.2⟩

lemma zip_fst_ids_sublist (l₁ : List Firearm) (l₂ : List User) :
    ((l₁.zip l₂).map fun p => p.1.id).Sublist (l₁.map Firearm.id) := by
  induction l₁ generalizing l₂ with
  | nil => simp
  | cons a t ih =>
    cases l₂ with
    | nil => simp
    | cons b u =>
      simp only [List.zip_cons_cons, List.map_cons]
      exact List.Sublist.cons₂ _ (ih u)

lemma mission_pairs_fst_ids_nodup (db : DB) (n : Nat) (l₂ : List User)
    (hndF : (db.firearms.map Firearm.id).Nodup) :
    (((mission_firearms db n).zip l₂).map fun p => p.1.id).Nodup := by
  have h1 : ((mission_firearms db n).map Firearm.id).Sublist
      (db.firearms.map Firearm.id) :=
    ((List.take_sublist n _).trans (List.filter_sublist _)).map Firearm.id
  exact ((zip_fst_ids_sublist _ l₂).trans h1).nodup hndF

lemma mission_alloc_rows_open_count (genA : Nat → String) (start : Int)
    (fid : String) :
    ∀ (L : List (Firearm × User)) (i : Nat), ((L.map fun p => p.1.id).Nodup) →
      open_count (mission_alloc_rows genA start i L) fid =
        if fid ∈ L.map (fun p => p.1.id) then 1 else 0 := by
  intro L
  induction L with
  | nil => intro i _; simp [mission_alloc_rows, open_count]
  | cons p rest ih =>
    intro i hnd
    obtain ⟨f, g⟩ := p
    have hstep : mission_alloc_rows genA start i ((f, g) :: rest) =
        ({ id := genA i, guard_id := g.id, firearm_id := f.id,
           allocation_date := start, return_date := none, status := "active",
           issued_by := none, expected_return_date := none, notes := none } :
          FirearmAllocation) :: mission_alloc_rows genA start (i + 1) rest := rfl
    rw [hstep, open_count_cons]
    simp only [List.map_cons, List.nodup_cons] at hnd
    by_cases h : f.id = fid
    · have hopen : is_open_firearm_alloc_for fid
          ({ id := genA i, guard_id := g.id, firearm_id := f.id,
             allocation_date := start, return_date := none, status := "active",
             issued_by := none, expected_return_date := none, notes := none } :
            FirearmAllocation) = true := by
        simp [is_open_firearm_alloc_for, h]
      have hnotin : fid ∉ rest.map (fun p => p.1.id) := by rw [← h]; exact hnd.1
      have hin : fid ∈ List.map (fun p => p.1.id) ((f, g) :: rest) := by
        simp only [List.map_cons, List.mem_cons]
        exact Or.inl h.symm
      rw [hopen, ih (i + 1) hnd.2, if_neg hnotin, if_pos hin]
      simp
    · have hopen : is_open_firearm_alloc_for fid
          ({ id := genA i, guard_id := g.id, firearm_id := f.id,
             allocation_date := start, return_date := none, status := "active",
             issued_by := none, expected_return_date := none, notes := none } :
            FirearmAllocation) = false := by
        simp [is_open_firearm_alloc_for, h]
      rw [hopen, ih (i + 1) hnd.2]
      have hmem : (fid ∈ (((f, g) :: rest).map fun p => p.1.id)) ↔
          (fid ∈ rest.map fun p => p.1.id) := by
        simp only [List.map_cons, List.mem_cons]
        constructor
        · rintro (he | hm)
          · exact absurd he.symm h
          · exact hm
        · exact fun hm => Or.inr hm
      by_cases hm : fid ∈ rest.map (fun p => p.1.id)
      · rw [if_pos hm, if_pos (hmem.mpr hm)]
        simp
      · rw [if_neg hm, if_neg (fun hx => hm (hmem.mp hx))]
        simp

lemma mission_alloc_rows_ids_mem (genA : Nat → String) (start : Int) :
    ∀ (L : List (Firearm × User)) (i : Nat) (x : String),
      x ∈ (mission_alloc_rows genA start i L).map FirearmAllocation.id →
        ∃ k, i ≤ k ∧ x = genA k := by
  intro L
  induction L with
  | nil => intro i x hx; simp [mission_alloc_rows] at hx
  | cons p rest ih =>
    intro i x hx
    obtain ⟨f, g⟩ := p
    simp only [show mission_alloc_rows genA start i ((f, g) :: rest) = _ :: _ from rfl,
      List.map_cons, List.mem_cons] at hx
    rcases hx with he | hm
    · exact ⟨i, le_refl i, he⟩
    · obtain ⟨k, hk, hx⟩ := ih (i + 1) x hm
      exact ⟨k, by omega, hx⟩

lemma mission_alloc_rows_ids_nodup (genA : Nat → String) (start : Int)
    (hinj : ∀ i j, genA i = genA j → i = j) :
    ∀ (L : List (Firearm × User)) (i : Nat),
      ((mission_alloc_rows genA start i L).map FirearmAllocation.id).Nodup := by
  intro L
  induction L with
  | nil => intro i; simp [mission_alloc_rows]
  | cons p rest ih =>
    intro i
    obtain ⟨f, g⟩ := p
    simp only [show mission_alloc_rows genA start i ((f, g) :: rest) = _ :: _ from rfl,
      List.map_cons, List.nodup_cons]
    refine ⟨?_, ih (i + 1)⟩
    intro hmem
    obtain ⟨k, hk, he⟩ := mission_alloc_rows_ids_mem genA start rest (i + 1) _ hmem
    have := hinj i k he
    omega

lemma allocInv_apply_mission (db : DB) (req : MissionAssignmentRequest)
    (genS genA genT : Nat → String)
    (hfresh : ∀ i, genA i ∉ db.firearm_allocations.map FirearmAllocation.id)
    (hinj : ∀ i j, genA i = genA j → i = j)
    (hinv : AllocInv db) :
    AllocInv (apply_assign_mission db req genS genA genT) := by
  obtain ⟨⟨hndF, hndA⟩, hunit⟩ := hinv
  set pairs := (mission_firearms db req.firearms_required).zip
    (mission_guards db req.guards_required) with hpairs
  have hpairmem : ∀ p ∈ pairs, p.1 ∈ db.firearms ∧ p.1.status = "available" := by
    intro p hp
    obtain ⟨f, g⟩ := p
    have := List.of_mem_zip hp
    exact mission_firearms_mem db _ f this.1
  have hpnodup : (pairs.map fun p => p.1.id).Nodup :=
    mission_pairs_fst_ids_nodup db _ _ hndF
  have hcount : ∀ fid,
      open_firearm_allocs (apply_assign_mission db req genS genA genT) fid =
        open_firearm_allocs db fid +
          (if fid ∈ pairs.map (fun p => p.1.id) then 1 else 0) := by
    intro fid
    show open_count (db.firearm_allocations ++
      mission_alloc_rows genA req.start_time 0 pairs) fid = _
    rw [open_count_append, mission_alloc_rows_open_count genA req.start_time fid
      pairs 0 hpnodup]
    rfl
  refine ⟨⟨?_, ?_⟩, ?_⟩
  · show ((db.firearms.map fun f =>
      if pairs.any (fun p => p.1.id == f.id) then { f with status := "allocated" }
      else f).map Firearm.id).Nodup
    rw [map_id_of_status_update]
    exact hndF
  · show ((db.firearm_allocations ++
      mission_alloc_rows genA req.start_time 0 pairs).map
        FirearmAllocation.id).Nodup
    rw [List.map_append, List.nodup_append]
    refine ⟨hndA, mission_alloc_rows_ids_nodup genA req.start_time hinj pairs 0, ?_⟩
    intro x hx hx'
    obtain ⟨k, _, he⟩ := mission_alloc_rows_ids_mem genA req.start_time pairs 0 x hx'
    exact hfresh k (he ▸ hx)
  · intro f' hf'
    rw [show (apply_assign_mission db req genS genA genT).firearms =
      db.firearms.map (fun f =>
        if pairs.any (fun p => p.1.id == f.id) then { f with status := "allocated" }
        else f) from rfl, List.mem_map] at hf'
    obtain ⟨f, hf, rfl⟩ := hf'
    by_cases hin : f.id ∈ pairs.map (fun p => p.1.id)
    · obtain ⟨p, hp, hpid⟩ := List.mem_map.mp hin
      have hpm := hpairmem p hp
      have hfp : f = p.1 := List.inj_on_of_nodup_map hndF hf hpm.1 hpid.symm
      have havail : f.status = "available" := by rw [hfp]; exact hpm.2
      have hc0 : open_firearm_allocs db f.id = 0 :=
        status_available_count_zero db f hf hunit havail
      have hany : pairs.any (fun q => q.1.id == f.id) = true := by
        rw [List.any_eq_true]
        exact ⟨p, hp, by simp [hpid]⟩
      rw [hany]
      simp only [if_true]
      have hone : open_firearm_allocs (apply_assign_mission db req genS genA genT)
          ({ f with status := "allocated" } : Firearm).id = 1 := by
        show open_firearm_allocs _ f.id = 1
        rw [hcount f.id, hc0, if_pos hin]
      rw [hone]
      simp
    · have hany : pairs.any (fun q => q.1.id == f.id) = false := by
        rw [Bool.eq_false_iff]
        intro hx
        rw [List.any_eq_true] at hx
        obtain ⟨q, hq, hqe⟩ := hx
        exact hin (List.mem_map.mpr ⟨q, hq, by simpa using hqe⟩)
      rw [hany]
      simp only [Bool.false_eq_true, if_false]
      have hsame : open_firearm_allocs (apply_assign_mission db req genS genA genT)
          f.id = open_firearm_allocs db f.id := by
        rw [hcount f.id, if_neg hin]
        omega
      rw [hsame]
      exact hunit f hf

lemma allocInv_assign_mission (db : DB) (req : MissionAssignmentRequest)
    (genS genA genT : Nat → String)
    (hfresh : ∀ i, genA i ∉ db.firearm_allocations.map FirearmAllocation.id)
    (hinj : ∀ i j, genA i = genA j → i = j)
    (hinv : AllocInv db) : AllocInv (assign_mission db req genS genA genT).2 := by
  unfold assign_mission
  dsimp only
  split
  · exact hinv
  · split
    · exact hinv
    · split
      · exact hinv
      · exact allocInv_apply_mission db req genS genA genT hfresh hinj hinv

lemma allocInv_of_firearm_tables_eq (db db' : DB)
    (h1 : db'.firearms = db.firearms)
    (h2 : db'.firearm_allocations = db.firearm_allocations)
    (hinv : AllocInv db) : AllocInv db' := by
  obtain ⟨⟨hndF, hndA⟩, hunit⟩ := hinv
  refine ⟨⟨by rw [h1]; exact hndF, by rw [h2]; exact hndA⟩, ?_⟩
  intro f hf
  rw [h1] at hf
  have hcnt : ∀ fid, open_firearm_allocs db' fid = open_firearm_allocs db fid := by
    intro fid
    show open_count db'.firearm_allocations fid = _
    rw [h2]
    rfl
  rw [hcnt]
  exact hunit f hf

lemma allocInv_issue_car (db : DB) (req : IssueCarRequest) (now : Int)
    (aid : String) (hinv : AllocInv db) : AllocInv (issue_car db req now aid).2 :=
  allocInv_of_firearm_tables_eq db _ rfl rfl hinv

lemma allocInv_return_car (db : DB) (aid : String) (now : Int)
    (hinv : AllocInv db) : AllocInv (return_car db aid now).2 := by
  unfold return_car
  split
  · exact hinv
  · exact allocInv_of_firearm_tables_eq db _ rfl rfl hinv

lemma allocInv_step (db db' : DB) (hstep : AllocStep db db') (hinv : AllocInv db) :
    AllocInv db' := by
  cases hstep with
  | issueF req now aid hforce hfresh =>
    exact allocInv_issue_firearm db req now aid hforce hfresh hinv
  | returnF aid now a hfind hactive hopen =>
    exact allocInv_return_firearm db aid now a hfind hactive hopen hinv
  | mission req genS genA genT hfresh hinj =>
    exact allocInv_assign_mission db req genS genA genT hfresh hinj hinv
  | issueC req now aid => exact allocInv_issue_car db req now aid hinv
  | returnC aid now => exact allocInv_return_car db aid now hinv

lemma allocInv_reachable (db₀ db : DB) (h0 : AllocInv db₀)
    (h : AllocReachable db₀ db) : AllocInv db := by
  induction h with
  | refl => exact h0
  | step db₂ db₃ _ hstep ih => exact allocInv_step db₂ db₃ hstep ih

/-- C1 (amended): for firearms, starting from any state with unique table keys
that satisfies the unit invariant, every state reachable through non-forced
firearm issuance with fresh allocation keys, firearm return of still-open
allocations, mission assignment with fresh allocation keys, and the two car
operations keeps the invariant: at most one open allocation (status `active`,
`return_date` null) references each firearm, and a firearm's status is
`allocated` exactly when one open allocation references it.  As stated — over
vehicles, forced issuance and repeated returns too — the claim is false; see
the counterexample. -/
theorem firearm_no_double_allocation (db₀ db : DB) (h0 : AllocInv db₀)
    (h : AllocReachable db₀ db) :
    ∀ f ∈ db.firearms, open_firearm_allocs db f.id ≤ 1 ∧
      (f.status = "allocated" ↔ open_firearm_allocs db f.id = 1) :=
  (allocInv_reachable db₀ db h0 h).2

/-- C1 witness: after one legitimate issuance of firearm f1 to guard g1, the
reachable state still satisfies the unit invariant at f1 (now allocated with
exactly one open allocation). -/
theorem firearm_no_double_allocation_witness :
    open_firearm_allocs (issue_firearm c1_wdb c1_wreq 0 "a1").2 "f1" ≤ 1 ∧
    (("allocated" : String) = "allocated" ↔
      open_firearm_allocs (issue_firearm c1_wdb c1_wreq 0 "a1").2 "f1" = 1) :=
  firearm_no_double_allocation c1_wdb _ (by decide)
    (AllocReachable.step _ _ _ (AllocReachable.refl _)
      (AllocStep.issueF c1_wdb c1_wreq 0 "a1" rfl (by decide)))
    ⟨"f1", "allocated"⟩ (by decide)

/-- C1 counterexample: `issue_car` has no conditional availability check, so
issuing the same car twice yields a reachable state in which two open
allocations reference car1 — the first issue leaves the car `allocated`, yet
the second issue still succeeds. -/
theorem car_double_allocation_reachable :
    (issue_car c1_db c1_req 0 "ca1").1 = Except.ok "ca1" ∧
    ((issue_car c1_db c1_req 0 "ca1").2.armored_cars.map ArmoredCar.status =
      ["allocated"]) ∧
    (issue_car (issue_car c1_db c1_req 0 "ca1").2 c1_req 5 "ca2").1 =
      Except.ok "ca2" ∧
    open_car_allocs (issue_car (issue_car c1_db c1_req 0 "ca1").2 c1_req 5 "ca2").2
      "car1" = 2 := by decide

/-- C2 counterexample: on a shift whose `replacement_status` is already
`accepted` (assigned to g1), a further `accept_replacement` call does not fail
with a Conflict — it succeeds and silently reassigns the shift to the caller,
refuting the claimed first-writer-wins contract at a concrete input. -/
theorem accept_replacement_overrides_accepted :
    (accept_replacement c2_db "g2" "s1" none).1 = Except.ok () ∧
    (accept_replacement c2_db "g2" "s1" none).2.shifts =
      [⟨"s1", "g2", 540, 1020, "SiteA", "scheduled", none, some "accepted"⟩] := by
  decide

/-- C2 (amended): for every existing guard and existing shift — whatever the
shift's current `replacement_status`, including `accepted` — the handler
succeeds: it never signals Conflict, and it unconditionally reassigns the
shift to the caller with `replacement_status = 'accepted'` (the fetched
`replacement_status` is never inspected). -/
theorem accept_replacement_no_conflict (db : DB) (gid sid : String)
    (nid : Option String) (hg : user_exists db gid = true)
    (hs : (db.shifts.any fun s => s.id == sid) = true) :
    (accept_replacement db gid sid nid).1 = Except.ok () ∧
    (accept_replacement db gid sid nid).2.shifts =
      db.shifts.map (fun s => if s.id == sid then
        { s with guard_id := gid, replacement_status := some "accepted" }
        else s) ∧
    (∀ m, (accept_replacement db gid sid nid).1 ≠
      Except.error (AppError.Conflict m)) := by
  have hng : ¬(user_exists db gid = false) := by
    rw [hg]
    simp
  have hns : ¬((db.shifts.any fun s => s.id == sid) = false) := by
    rw [hs]
    simp
  unfold accept_replacement
  rw [if_neg hng, if_neg hns]
  cases nid with
  | none => exact ⟨rfl, rfl, fun m h => by simp at h⟩
  | some x => exact ⟨rfl, rfl, fun m h => by simp at h⟩

/-- C2 witness: the concrete already-accepted shift s1: the second acceptance
by g2 succeeds, reassigns the shift, and is not a Conflict. -/
theorem accept_replacement_no_conflict_witness :
    (accept_replacement c2_db "g2" "s1" none).1 = Except.ok () ∧
    (accept_replacement c2_db "g2" "s1" none).2.shifts =
      c2_db.shifts.map (fun s => if s.id == "s1" then
        { s with guard_id := "g2", replacement_status := some "accepted" }
        else s) ∧
    (∀ m, (accept_replacement c2_db "g2" "s1" none).1 ≠
      Except.error (AppError.Conflict m)) :=
  accept_replacement_no_conflict c2_db "g2" "s1" none (by decide) (by decide)

lemma take_length_lt {α : Type} (l : List α) (n : Nat) :
    (l.take n).length < n ↔ l.length < n := by
  rw [List.length_take]
  omega

/-- C3: whenever any one of the three resource types has fewer
currently-available units than the requested count, `assign_mission` answers
with the corresponding insufficiency error and leaves the whole store
untouched — no shifts, no firearm allocations, no trips, no status change. -/
theorem assign_mission_all_or_nothing (db : DB) (req : MissionAssignmentRequest)
    (genS genA genT : Nat → String)
    (h : (db.users.filter fun u => u.role == "user" && u.verified).length <
          req.guards_required ∨
        (db.firearms.filter fun f => f.status == "available").length <
          req.firearms_required ∨
        (db.armored_cars.filter fun c => c.status == "operational").length <
          req.vehicles_required) :
    ((assign_mission db req genS genA genT).1 = Except.error (AppError.BadRequest
        ("Insufficient guards available. Requested: " ++
          toString req.guards_required ++ ", Available: " ++
          toString (mission_guards db req.guards_required).length)) ∨
      (assign_mission db req genS genA genT).1 = Except.error (AppError.BadRequest
        ("Insufficient firearms available. Requested: " ++
          toString req.firearms_required ++ ", Available: " ++
          toString (mission_firearms db req.firearms_required).length)) ∨
      (assign_mission db req genS genA genT).1 = Except.error (AppError.BadRequest
        ("Insufficient vehicles available. Requested: " ++
          toString req.vehicles_required ++ ", Available: " ++
          toString (mission_vehicles db req.vehicles_required).length))) ∧
    (assign_mission db req genS genA genT).2 = db := by
  unfold assign_mission
  dsimp only
  by_cases h1 : (mission_guards db req.guards_required).length < req.guards_required
  · rw [if_pos h1]
    exact ⟨Or.inl rfl, rfl⟩
  · rw [if_neg h1]
    by_cases h2 : (mission_firearms db req.firearms_required).length <
        req.firearms_required
    · rw [if_pos h2]
      exact ⟨Or.inr (Or.inl rfl), rfl⟩
    · rw [if_neg h2]
      by_cases h3 : (mission_vehicles db req.vehicles_required).length <
          req.vehicles_required
      · rw [if_pos h3]
        exact ⟨Or.inr (Or.inr rfl), rfl⟩
      · exfalso
        rw [show mission_guards db req.guards_required =
          (db.users.filter fun u => u.role == "user" && u.verified).take
            req.guards_required from rfl, take_length_lt] at h1
        rw [show mission_firearms db req.firearms_required =
          (db.firearms.filter fun f => f.status == "available").take
            req.firearms_required from rfl, take_length_lt] at h2
        rw [show mission_vehicles db req.vehicles_required =
          (db.armored_cars.filter fun c => c.status == "operational").take
            req.vehicles_required from rfl, take_length_lt] at h3
        rcases h with h | h | h
        · exact h1 h
        · exact h2 h
        · exact h3 h

/-- C3 witness: the spec scenario — 3 guards, 2 firearms and 1 vehicle
requested, only 1 firearm available — aborts with the firearm insufficiency
error and creates nothing. -/
theorem assign_mission_all_or_nothing_witness :
    ((assign_mission c3_wdb c3_wreq toString toString toString).1 =
        Except.error (AppError.BadRequest
          ("Insufficient guards available. Requested: " ++
            toString c3_wreq.guards_required ++ ", Available: " ++
            toString (mission_guards c3_wdb c3_wreq.guards_required).length)) ∨
      (assign_mission c3_wdb c3_wreq toString toString toString).1 =
        Except.error (AppError.BadRequest
          ("Insufficient firearms available. Requested: " ++
            toString c3_wreq.firearms_required ++ ", Available: " ++
            toString (mission_firearms c3_wdb c3_wreq.firearms_required).length)) ∨
      (assign_mission c3_wdb c3_wreq toString toString toString).1 =
        Except.error (AppError.BadRequest
          ("Insufficient vehicles available. Requested: " ++
            toString c3_wreq.vehicles_required ++ ", Available: " ++
            toString (mission_vehicles c3_wdb c3_wreq.vehicles_required).length))) ∧
    (assign_mission c3_wdb c3_wreq toString toString toString).2 = c3_wdb :=
  assign_mission_all_or_nothing c3_wdb c3_wreq toString toString toString
    (by decide)

lemma issue_firearm_cases (db : DB) (req : IssueFirearmRequest) (now : Int)
    (aid : String) :
    ((∃ e, (issue_firearm db req now aid).1 = Except.error e) ∧
      (issue_firearm db req now aid).2 = db) ∨
    ((issue_firearm db req now aid).1 = Except.ok aid ∧
      (issue_firearm db req now aid).2 = apply_issue_firearm db req now aid ∧
      user_exists db req.guard_id = true ∧
      ∃ fa, db.firearms.find? (fun f => f.id == req.firearm_id) = some fa ∧
        (req.force.getD false = true ∨
          (fa.status = "available" ∧
            has_valid_permit db req.guard_id now = true ∧
            has_valid_training db req.guard_id now = true))) := by
  unfold issue_firearm
  dsimp only
  split
  · exact Or.inl ⟨⟨_, rfl⟩, rfl⟩
  · split
    · exact Or.inl ⟨⟨_, rfl⟩, rfl⟩
    · rename_i fa hfind
      split
      · exact Or.inl ⟨⟨_, rfl⟩, rfl⟩
      · rename_i hc1
        split
        · exact Or.inl ⟨⟨_, rfl⟩, rfl⟩
        · rename_i hc2
          split
          · exact Or.inl ⟨⟨_, rfl⟩, rfl⟩
          · rename_i hc3
            split
            · exact Or.inl ⟨⟨_, rfl⟩, rfl⟩
            · rename_i hc4
              right
              refine ⟨rfl, rfl, ?_, fa, hfind, ?_⟩
              · cases hu : user_exists db req.guard_id
                · exact absurd hu hc2
                · rfl
              · by_cases hf : req.force.getD false = true
                · exact Or.inl hf
                · have hff : req.force.getD false = false := by
                    cases hx : req.force.getD false
                    · rfl
                    · exact absurd hx hf
                  refine Or.inr ⟨?_, ?_, ?_⟩
                  · by_contra hna
                    exact hc1 ⟨hff, hna⟩
                  · cases hp : has_valid_permit db req.guard_id now
                    · exact absurd ⟨hff, hp⟩ hc3
                    · rfl
                  · cases ht : has_valid_training db req.guard_id now
                    · exact absurd ⟨hff, ht⟩ hc4
                    · rfl

/-- C4 counterexample: issuing an armored car whose status is `allocated` (not
`available`) succeeds anyway and records a second allocation — `issue_car`
performs no conditional availability transition at all. -/
theorem issue_car_no_availability_check :
    (c4_db.armored_cars.map ArmoredCar.status = ["allocated"]) ∧
    (issue_car c4_db ⟨"car1", "clientX", none, none⟩ 0 "ca9").1 =
      Except.ok "ca9" ∧
    (issue_car c4_db ⟨"car1", "clientX", none, none⟩ 0 "ca9").2.car_allocations =
      [⟨"ca9", "car1", "clientX", 0, none, none, "active", none⟩] := by decide

/-- C4 (amended): for firearms the conditional transition holds — a non-forced
issuance succeeds only when the firearm's status is `available`, and the same
operation that creates the active allocation row also sets the status to
`allocated`; when the firearm is not available the call fails and leaves the
store untouched.  For vehicles no such check exists: `issue_car` succeeds
unconditionally. -/
theorem issue_conditional_on_availability (db : DB) (req : IssueFirearmRequest)
    (now : Int) (aid : String) (hforce : req.force.getD false = false) :
    (∀ s, (issue_firearm db req now aid).1 = Except.ok s →
      ∃ fa, db.firearms.find? (fun f => f.id == req.firearm_id) = some fa ∧
        fa.status = "available") ∧
    ((issue_firearm db req now aid).1 = Except.ok aid →
      (issue_firearm db req now aid).2.firearm_allocations =
        db.firearm_allocations ++
          [⟨aid, req.guard_id, req.firearm_id, now, none, "active",
            req.issued_by, req.expected_return_date, req.notes⟩] ∧
      (issue_firearm db req now aid).2.firearms = db.firearms.map fun f =>
        if f.id == req.firearm_id then { f with status := "allocated" } else f) ∧
    (∀ fa, db.firearms.find? (fun f => f.id == req.firearm_id) = some fa →
      fa.status ≠ "available" →
      (∃ e, (issue_firearm db req now aid).1 = Except.error e) ∧
      (issue_firearm db req now aid).2 = db) ∧
    (∀ (req' : IssueCarRequest) (now' : Int) (aid' : String),
      (issue_car db req' now' aid').1 = Except.ok aid') := by
  rcases issue_firearm_cases db req now aid with
    ⟨⟨e, he⟩, hdb⟩ | ⟨hok, happ, hguard, fa, hfind, hdisj⟩
  · refine ⟨?_, ?_, ?_, fun req' now' aid' => rfl⟩
    · intro s hs
      rw [he] at hs
      simp at hs
    · intro hs
      rw [he] at hs
      simp at hs
    · intro fa hfind hna
      exact ⟨⟨e, he⟩, hdb⟩
  · have havail : fa.status = "available" ∧
        has_valid_permit db req.guard_id now = true ∧
        has_valid_training db req.guard_id now = true := by
      rcases hdisj with hft | hrest
      · rw [hforce] at hft
        exact absurd hft (by simp)
      · exact hrest
    refine ⟨?_, ?_, ?_, fun req' now' aid' => rfl⟩
    · intro s _
      exact ⟨fa, hfind, havail.1⟩
    · intro _
      rw [happ]
      exact ⟨rfl, rfl⟩
    · intro fa' hfind' hna
      rw [hfind] at hfind'
      have : fa = fa' := by
        injection hfind'
      rw [← this] at hna
      exact absurd havail.1 hna

/-- C4 witness: with an `allocated` firearm f1 and no force flag, issuance
fails without side effects; `issue_car` always reports success. -/
theorem issue_conditional_on_availability_witness :
    (∀ s, (issue_firearm c4_wdb ⟨"f1", "g1", none, none, none, none⟩ 0 "a1").1 =
        Except.ok s →
      ∃ fa, c4_wdb.firearms.find? (fun f => f.id == "f1") = some fa ∧
        fa.status = "available") ∧
    ((issue_firearm c4_wdb ⟨"f1", "g1", none, none, none, none⟩ 0 "a1").1 =
        Except.ok "a1" →
      (issue_firearm c4_wdb ⟨"f1", "g1", none, none, none, none⟩ 0 "a1").2.firearm_allocations =
        c4_wdb.firearm_allocations ++
          [⟨"a1", "g1", "f1", 0, none, "active", none, none, none⟩] ∧
      (issue_firearm c4_wdb ⟨"f1", "g1", none, none, none, none⟩ 0 "a1").2.firearms =
        c4_wdb.firearms.map fun f =>
          if f.id == "f1" then { f with status := "allocated" } else f) ∧
    (∀ fa, c4_wdb.firearms.find? (fun f => f.id == "f1") = some fa →
      fa.status ≠ "available" →
      (∃ e, (issue_firearm c4_wdb ⟨"f1", "g1", none, none, none, none⟩ 0 "a1").1 =
        Except.error e) ∧
      (issue_firearm c4_wdb ⟨"f1", "g1", none, none, none, none⟩ 0 "a1").2 = c4_wdb) ∧
    (∀ (req' : IssueCarRequest) (now' : Int) (aid' : String),
      (issue_car c4_wdb req' now' aid').1 = Except.ok aid') :=
  issue_conditional_on_availability c4_wdb ⟨"f1", "g1", none, none, none, none⟩
    0 "a1" rfl

lemma issue_firearm_gate (db : DB) (req : IssueFirearmRequest) (now : Int)
    (aid : String) (fa : Firearm)
    (hne : ¬(req.firearm_id = "" ∨ req.guard_id = ""))
    (hfind : db.firearms.find? (fun f => f.id == req.firearm_id) = some fa)
    (hguard : user_exists db req.guard_id = true) :
    (req.force.getD false = false → fa.status = "available" →
      ((has_valid_permit db req.guard_id now = false →
        (issue_firearm db req now aid).1 = Except.error (AppError.Forbidden
          "Guard does not have a valid, active firearm permit. Use force=true to override.")) ∧
      (has_valid_permit db req.guard_id now = true →
        has_valid_training db req.guard_id now = false →
        (issue_firearm db req now aid).1 = Except.error (AppError.Forbidden
          "Guard does not have valid firearms_handling training. Use force=true to override.")) ∧
      (has_valid_permit db req.guard_id now = true →
        has_valid_training db req.guard_id now = true →
        (issue_firearm db req now aid).1 = Except.ok aid))) ∧
    (req.force = some true → (issue_firearm db req now aid).1 = Except.ok aid) := by
  have hcg : ¬(user_exists db req.guard_id = false) := by
    rw [hguard]
    simp
  unfold issue_firearm
  dsimp only
  rw [if_neg hne, hfind]
  dsimp only
  constructor
  · intro hforce havail
    have hca : ¬(req.force.getD false = false ∧ fa.status ≠ "available") :=
      fun h => h.2 havail
    rw [if_neg hca, if_neg hcg]
    refine ⟨?_, ?_, ?_⟩
    · intro hp
      rw [if_pos ⟨hforce, hp⟩]
    · intro hp ht
      have hcp : ¬(req.force.getD false = false ∧
          has_valid_permit db req.guard_id now = false) := by
        intro h
        rw [hp] at h
        exact absurd h.2 (by simp)
      rw [if_neg hcp, if_pos ⟨hforce, ht⟩]
    · intro hp ht
      have hcp : ¬(req.force.getD false = false ∧
          has_valid_permit db req.guard_id now = false) := by
        intro h
        rw [hp] at h
        exact absurd h.2 (by simp)
      have hct : ¬(req.force.getD false = false ∧
          has_valid_training db req.guard_id now = false) := by
        intro h
        rw [ht] at h
        exact absurd h.2 (by simp)
      rw [if_neg hcp, if_neg hct]
  · intro hft
    have hgd : req.force.getD false = true := by rw [hft]; rfl
    have hx : ∀ (p : Prop), ¬(req.force.getD false = false ∧ p) := by
      intro p h
      rw [hgd] at h
      exact absurd h.1 (by simp)
    rw [if_neg (hx _), if_neg hcg, if_neg (hx _), if_neg (hx _)]

/-- C9: with no force flag, `issue_firearm` on an existing available firearm
for an existing guard is denied with `Forbidden` exactly when the guard lacks
an active unexpired permit or valid unexpired firearms_handling training; every
error path leaves the store unchanged (no allocation row, no status change);
and `force = true` bypasses all the checks, always succeeding in that
situation. -/
theorem issue_firearm_authorization (db : DB) (req : IssueFirearmRequest)
    (now : Int) (aid : String) (fa : Firearm)
    (hne1 : req.firearm_id ≠ "") (hne2 : req.guard_id ≠ "")
    (hfind : db.firearms.find? (fun f => f.id == req.firearm_id) = some fa)
    (hguard : user_exists db req.guard_id = true) :
    (req.force.getD false = false → fa.status = "available" →
      ((∃ m, (issue_firearm db req now aid).1 =
          Except.error (AppError.Forbidden m)) ↔
        ¬(has_valid_permit db req.guard_id now = true ∧
          has_valid_training db req.guard_id now = true))) ∧
    (∀ e, (issue_firearm db req now aid).1 = Except.error e →
      (issue_firearm db req now aid).2 = db) ∧
    (req.force = some true → (issue_firearm db req now aid).1 = Except.ok aid) := by
  have hne : ¬(req.firearm_id = "" ∨ req.guard_id = "") := by
    intro h
    rcases h with h | h
    · exact hne1 h
    · exact hne2 h
  obtain ⟨hgate, hbypass⟩ := issue_firearm_gate db req now aid fa hne hfind hguard
  refine ⟨?_, ?_, hbypass⟩
  · intro hforce havail
    obtain ⟨hg1, hg2, hg3⟩ := hgate hforce havail
    constructor
    · rintro ⟨m, hm⟩ ⟨hp, ht⟩
      rw [hg3 hp ht] at hm
      exact absurd hm (by simp)
    · intro hnb
      cases hp : has_valid_permit db req.guard_id now
      · exact ⟨_, hg1 hp⟩
      · cases ht : has_valid_training db req.guard_id now
        · exact ⟨_, hg2 hp ht⟩
        · exact absurd ⟨hp, ht⟩ hnb
  · intro e he
    rcases issue_firearm_cases db req now aid with ⟨_, hdb⟩ | ⟨hok, _⟩
    · exact hdb
    · rw [hok] at he
      exact absurd he (by simp)

/-- C9 witness: guard g1 has an active permit but no firearms_handling
training, firearm f1 is available; the non-forced issuance is Forbidden with no
side effects, and a forced issuance would succeed. -/
theorem issue_firearm_authorization_witness :
    ((⟨"f1", "g1", none, none, none, none⟩ :
        IssueFirearmRequest).force.getD false = false →
      ("available" : String) = "available" →
      ((∃ m, (issue_firearm c9_wdb ⟨"f1", "g1", none, none, none, none⟩ 0 "a1").1 =
          Except.error (AppError.Forbidden m)) ↔
        ¬(has_valid_permit c9_wdb "g1" 0 = true ∧
          has_valid_training c9_wdb "g1" 0 = true))) ∧
    (∀ e, (issue_firearm c9_wdb ⟨"f1", "g1", none, none, none, none⟩ 0 "a1").1 =
        Except.error e →
      (issue_firearm c9_wdb ⟨"f1", "g1", none, none, none, none⟩ 0 "a1").2 = c9_wdb) ∧
    ((⟨"f1", "g1", none, none, none, none⟩ : IssueFirearmRequest).force = some true →
      (issue_firearm c9_wdb ⟨"f1", "g1", none, none, none, none⟩ 0 "a1").1 =
        Except.ok "a1") :=
  issue_firearm_authorization c9_wdb ⟨"f1", "g1", none, none, none, none⟩ 0 "a1"
    ⟨"f1", "available"⟩ (by decide) (by decide) (by decide) (by decide)

/-- C5: the merit computation — attendance, punctuality and client-rating
components with their zero-history defaults, the 30/35/35 weighting, the
clamped response score, the rank thresholds, and the spec §8 scenario (10
shifts, 8 completed, 9/9 on time, 4 evaluations averaging 4.5 → 80/100/90,
overall 90.5, rank Gold). -/
theorem calculate_merit_score_spec (db : DB) (g : String) :
    (total_shifts db g = 0 → attendance_score db g = 0) ∧
    (total_shifts db g > 0 → attendance_score db g =
      (completed_attendance db g : ℚ) / (total_shifts db g : ℚ) * 100) ∧
    (total_punctuality_records db g = 0 → punctuality_score db g = 0) ∧
    (total_punctuality_records db g > 0 → punctuality_score db g =
      (on_time_count db g : ℚ) / (total_punctuality_records db g : ℚ) * 100) ∧
    (evaluations_of db g = [] → client_rating db g = 0) ∧
    (overall_score db g = (30 / 100) * attendance_score db g +
      (35 / 100) * punctuality_score db g + (35 / 100) * client_rating db g) ∧
    (0 ≤ (calculate_merit_score db g).overall_score ∧
      (calculate_merit_score db g).overall_score ≤ 100) ∧
    (overall_score db g ≥ 90 → merit_rank db g = "Gold") ∧
    (80 ≤ overall_score db g ∧ overall_score db g < 90 →
      merit_rank db g = "Silver") ∧
    (70 ≤ overall_score db g ∧ overall_score db g < 80 →
      merit_rank db g = "Bronze") ∧
    (overall_score db g < 70 → merit_rank db g = "Standard") ∧
    (attendance_score c5_db "G" = 80 ∧ punctuality_score c5_db "G" = 100 ∧
      client_rating c5_db "G" = 90 ∧ overall_score c5_db "G" = 90.5 ∧
      merit_rank c5_db "G" = "Gold" ∧
      (calculate_merit_score c5_db "G").overall_score = 90.5) := by
  refine ⟨?_, ?_, ?_, ?_, ?_, ?_, ⟨?_, ?_⟩, ?_, ?_, ?_, ?_, ?_⟩
  · intro h
    simp [attendance_score, h]
  · intro h
    rw [attendance_score, if_pos h]
  · intro h
    simp [punctuality_score, h]
  · intro h
    rw [punctuality_score, if_pos h]
  · intro h
    simp [client_rating, avg_rating, h]
  · rw [overall_score]
    ring
  · exact le_max_right _ 0
  · exact max_le (min_le_right _ _) (by norm_num)
  · intro h
    rw [merit_rank]
    simp only [if_pos h]
  · rintro ⟨h1, h2⟩
    rw [merit_rank]
    rw [if_neg (by simpa using not_le.mpr h2), if_pos h1]
  · rintro ⟨h1, h2⟩
    rw [merit_rank]
    rw [if_neg (by simpa using not_le.mpr (lt_trans h2 (by norm_num))),
      if_neg (by simpa using not_le.mpr h2), if_pos h1]
  · intro h
    rw [merit_rank]
    rw [if_neg (by simpa using not_le.mpr (lt_trans h (by norm_num))),
      if_neg (by simpa using not_le.mpr (lt_trans h (by norm_num))),
      if_neg (by simpa using not_le.mpr h)]
  · have ha : attendance_score c5_db "G" = 80 := by
      norm_num [attendance_score, completed_attendance, total_shifts, c5_db,
        emptyDB, List.filter]
    have hp : punctuality_score c5_db "G" = 100 := by
      norm_num [punctuality_score, on_time_count, total_punctuality_records,
        c5_db, emptyDB, List.filter]
    have hc : client_rating c5_db "G" = 90 := by
      norm_num [client_rating, avg_rating, evaluations_of, c5_db, emptyDB,
        List.filter]
    have hover : overall_score c5_db "G" = 90.5 := by
      rw [overall_score, ha, hp, hc]
      norm_num
    have hrank : merit_rank c5_db "G" = "Gold" := by
      unfold merit_rank
      rw [hover]
      rw [if_pos (by norm_num)]
    refine ⟨ha, hp, hc, hover, hrank, ?_⟩
    rw [show (calculate_merit_score c5_db "G").overall_score =
      clamp_score (overall_score c5_db "G") from rfl, hover, clamp_score]
    norm_num

/-- C5 witness: the scenario guard has shifts and punctuality records, so the
positive-history branches of the attendance and punctuality formulas apply. -/
theorem calculate_merit_score_spec_witness :
    (attendance_score c5_db "G" =
      (completed_attendance c5_db "G" : ℚ) / (total_shifts c5_db "G" : ℚ) * 100) ∧
    (punctuality_score c5_db "G" =
      (on_time_count c5_db "G" : ℚ) /
        (total_punctuality_records c5_db "G" : ℚ) * 100) :=
  ⟨(calculate_merit_score_spec c5_db "G").2.1 (by decide),
    (calculate_merit_score_spec c5_db "G").2.2.2.1 (by decide)⟩

/-- C8 counterexample: with guard g1 holding a scheduled shift over [0, 100),
`create_shift` accepts both a request whose start time is not before its end
time and a request overlapping the existing shift, creating a shift each
time — neither validation exists in the handler. -/
theorem create_shift_no_validation :
    ((create_shift c8_db ⟨"g1", 100, 50, "SiteB"⟩ "s1").1 = Except.ok "s1" ∧
      (create_shift c8_db ⟨"g1", 100, 50, "SiteB"⟩ "s1").2.shifts.length = 2) ∧
    ((create_shift c8_db ⟨"g1", 0, 100, "SiteA"⟩ "s2").1 = Except.ok "s2" ∧
      ∃ s ∈ c8_db.shifts, s.guard_id = "g1" ∧ s.status = "scheduled" ∧
        s.start_time < 100 ∧ (0 : Int) < s.end_time) := by decide

/-- C8 (amended): `create_shift` rejects empty fields, fails with NotFound and
no side effects when the guard does not exist, and otherwise always creates
the `scheduled` shift — it checks neither `start_time < end_time` nor overlap
with the guard's existing active shifts. -/
theorem create_shift_spec (db : DB) (req : CreateShiftRequest) (sid : String)
    (hgid : req.guard_id ≠ "") (hsite : req.client_site ≠ "") :
    (user_exists db req.guard_id = false →
      (create_shift db req sid).1 =
        Except.error (AppError.NotFound "Guard not found") ∧
      (create_shift db req sid).2 = db) ∧
    (user_exists db req.guard_id = true →
      (create_shift db req sid).1 = Except.ok sid ∧
      (create_shift db req sid).2.shifts = db.shifts ++
        [⟨sid, req.guard_id, req.start_time, req.end_time, req.client_site,
          "scheduled", none, none⟩]) := by
  have hne : ¬(req.guard_id = "" ∨ req.client_site = "") := by
    intro h
    rcases h with h | h
    · exact hgid h
    · exact hsite h
  unfold create_shift
  rw [if_neg hne]
  constructor
  · intro h
    rw [if_pos h]
    exact ⟨rfl, rfl⟩
  · intro h
    have hnf : ¬(user_exists db req.guard_id = false) := by
      rw [h]
      simp
    rw [if_neg hnf]
    exact ⟨rfl, rfl⟩

/-- C8 witness: creating a shift for the existing guard g1 succeeds and
appends the scheduled shift; a nonexistent guard would get NotFound. -/
theorem create_shift_spec_witness :
    (user_exists c8_wdb "g1" = false →
      (create_shift c8_wdb ⟨"g1", 540, 1020, "SiteA"⟩ "s1").1 =
        Except.error (AppError.NotFound "Guard not found") ∧
      (create_shift c8_wdb ⟨"g1", 540, 1020, "SiteA"⟩ "s1").2 = c8_wdb) ∧
    (user_exists c8_wdb "g1" = true →
      (create_shift c8_wdb ⟨"g1", 540, 1020, "SiteA"⟩ "s1").1 = Except.ok "s1" ∧
      (create_shift c8_wdb ⟨"g1", 540, 1020, "SiteA"⟩ "s1").2.shifts =
        c8_wdb.shifts ++
          [⟨"s1", "g1", 540, 1020, "SiteA", "scheduled", none, none⟩]) :=
  create_shift_spec c8_wdb ⟨"g1", 540, 1020, "SiteA"⟩ "s1" (by decide) (by decide)

/-- C10: `submit_client_evaluation` rejects every rating strictly below 0 or
strictly above 5 with a `BadRequest` and inserts nothing in that case, so
every evaluation row of the post state is either pre-existing or has a rating
within [0, 5]. -/
theorem submit_client_evaluation_validates (db : DB)
    (req : CreateClientEvaluationRequest) (eid : String) :
    (req.rating < 0 ∨ req.rating > 5 →
      (submit_client_evaluation db req eid).1 =
        Except.error (AppError.BadRequest "Rating must be between 0 and 5") ∧
      (submit_client_evaluation db req eid).2 = db) ∧
    (∀ e ∈ (submit_client_evaluation db req eid).2.client_evaluations,
      e ∈ db.client_evaluations ∨ (0 ≤ e.rating ∧ e.rating ≤ 5)) := by
  unfold submit_client_evaluation
  by_cases h : req.rating < 0 ∨ req.rating > 5
  · rw [if_pos h]
    exact ⟨fun _ => ⟨rfl, rfl⟩, fun e he => Or.inl he⟩
  · rw [if_neg h]
    refine ⟨fun hc => absurd hc h, ?_⟩
    intro e he
    dsimp only at he
    rw [List.mem_append] at he
    rcases he with he | he
    · exact Or.inl he
    · right
      simp only [List.mem_singleton] at he
      subst he
      push_neg at h
      exact ⟨h.1, h.2⟩

/-- C10 witness: a rating of 6 is rejected with BadRequest and the store is
unchanged, and the empty store trivially contains only in-range evaluations. -/
theorem submit_client_evaluation_validates_witness :
    ((6 : ℚ) < 0 ∨ (6 : ℚ) > 5 →
      (submit_client_evaluation emptyDB
          ⟨"g1", none, none, "Client", none, 6, none⟩ "e1").1 =
        Except.error (AppError.BadRequest "Rating must be between 0 and 5") ∧
      (submit_client_evaluation emptyDB
          ⟨"g1", none, none, "Client", none, 6, none⟩ "e1").2 = emptyDB) ∧
    (∀ e ∈ (submit_client_evaluation emptyDB
        ⟨"g1", none, none, "Client", none, 6, none⟩ "e1").2.client_evaluations,
      e ∈ emptyDB.client_evaluations ∨ (0 ≤ e.rating ∧ e.rating ≤ 5)) :=
  submit_client_evaluation_validates emptyDB
    ⟨"g1", none, none, "Client", none, 6, none⟩ "e1"

lemma mark_searching_ids (shifts : List Shift) (sid : String) :
    (mark_searching shifts sid).map Shift.id = shifts.map Shift.id := by
  unfold mark_searching
  induction shifts with
  | nil => rfl
  | cons a l ih =>
    simp only [List.map_cons]
    rw [ih]
    congr 1
    split <;> rfl

lemma has_blocking_mark_searching (shifts : List Shift) (sid gid : String)
    (target : Shift) :
    has_blocking_shift (mark_searching shifts sid) gid target =
      has_blocking_shift shifts gid target := by
  unfold has_blocking_shift mark_searching
  induction shifts with
  | nil => rfl
  | cons a l ih =>
    simp only [List.map_cons, List.any_cons]
    rw [ih]
    congr 1
    split <;> rfl

lemma availability_flag_congr (db₀ db : DB)
    (h : db.guard_availability = db₀.guard_availability) (g : String) :
    availability_flag db g = availability_flag db₀ g := by
  unfold availability_flag
  rw [h]

lemma eligible_guards_skeleton (db₀ db : DB) (h : SameSkeleton db₀ db)
    (t : Shift) : eligible_guards db t = eligible_guards db₀ t := by
  obtain ⟨hu, hga, hbs⟩ := h
  unfold eligible_guards
  rw [hu]
  refine congrArg (List.take 20) (List.filter_congr ?_)
  intro u _
  rw [availability_flag_congr db₀ db hga u.id, hbs u.id t]

lemma sameSkeleton_refl (db : DB) : SameSkeleton db db :=
  ⟨rfl, rfl, fun _ _ => rfl⟩

lemma sameSkeleton_process (db₀ db : DB) (gen : String → String → String)
    (t : Shift) (h : SameSkeleton db₀ db) :
    SameSkeleton db₀ (process_no_show gen db t) := by
  obtain ⟨hu, hga, hbs⟩ := h
  refine ⟨hu, hga, ?_⟩
  intro gid target
  show has_blocking_shift (mark_searching db.shifts t.id) gid target = _
  rw [has_blocking_mark_searching, hbs gid target]

lemma process_no_show_notifications (db₀ db : DB)
    (gen : String → String → String) (t : Shift) (h : SameSkeleton db₀ db) :
    (process_no_show gen db t).notifications = db.notifications ++
      (eligible_guards db₀ t).map (replacement_notification gen t) := by
  show db.notifications ++
    (eligible_guards { db with shifts := mark_searching db.shifts t.id } t).map
      (replacement_notification gen t) = _
  rw [eligible_guards_skeleton db₀ _ ?_ t]
  obtain ⟨hu, hga, hbs⟩ := h
  refine ⟨hu, hga, ?_⟩
  intro gid target
  show has_blocking_shift (mark_searching db.shifts t.id) gid target = _
  rw [has_blocking_mark_searching, hbs gid target]

lemma detect_fold_notifications (gen : String → String → String) (db₀ : DB) :
    ∀ (L : List Shift) (db : DB), SameSkeleton db₀ db →
      SameSkeleton db₀ (L.foldl (process_no_show gen) db) ∧
      (L.foldl (process_no_show gen) db).notifications =
        db.notifications ++
          (L.map fun s => (eligible_guards db₀ s).map
            (replacement_notification gen s)).flatten := by
  intro L
  induction L with
  | nil => intro db h; exact ⟨h, by simp⟩
  | cons s L ih =>
    intro db h
    have h1 : SameSkeleton db₀ (process_no_show gen db s) :=
      sameSkeleton_process db₀ db gen s h
    obtain ⟨h2, h3⟩ := ih (process_no_show gen db s) h1
    refine ⟨h2, ?_⟩
    show (L.foldl (process_no_show gen) (process_no_show gen db s)).notifications = _
    rw [h3, process_no_show_notifications db₀ db gen s h]
    simp [List.append_assoc]

lemma detect_shifts_ids (gen : String → String → String) :
    ∀ (L : List Shift) (db : DB),
      (L.foldl (process_no_show gen) db).shifts.map Shift.id =
        db.shifts.map Shift.id := by
  intro L
  induction L with
  | nil => intro db; rfl
  | cons s L ih =>
    intro db
    rw [show (s :: L).foldl (process_no_show gen) db =
      L.foldl (process_no_show gen) (process_no_show gen db s) from rfl, ih]
    show (mark_searching db.shifts s.id).map Shift.id = _
    rw [mark_searching_ids]

lemma process_marks_self (gen : String → String → String) (db : DB) (t : Shift) :
    MarkedSearching (process_no_show gen db t) t.id := by
  intro s' hs' he
  have hs'' : s' ∈ mark_searching db.shifts t.id := hs'
  unfold mark_searching at hs''
  rw [List.mem_map] at hs''
  obtain ⟨s₀, hs₀, rfl⟩ := hs''
  by_cases h : (s₀.id == t.id) = true
  · rw [if_pos h]
  · rw [if_neg h] at he ⊢
    exact absurd (by simp [he]) h

lemma process_preserves_marked (gen : String → String → String) (db : DB)
    (t : Shift) (sid : String) (h : MarkedSearching db sid) :
    MarkedSearching (process_no_show gen db t) sid := by
  intro s' hs' he
  have hs'' : s' ∈ mark_searching db.shifts t.id := hs'
  unfold mark_searching at hs''
  rw [List.mem_map] at hs''
  obtain ⟨s₀, hs₀, rfl⟩ := hs''
  by_cases hb : (s₀.id == t.id) = true
  · rw [if_pos hb]
  · rw [if_neg hb] at he ⊢
    exact h s₀ hs₀ he

lemma fold_preserves_marked (gen : String → String → String) (sid : String) :
    ∀ (L : List Shift) (db : DB), MarkedSearching db sid →
      MarkedSearching (L.foldl (process_no_show gen) db) sid := by
  intro L
  induction L with
  | nil => intro db h; exact h
  | cons s L ih =>
    intro db h
    exact ih (process_no_show gen db s) (process_preserves_marked gen db s sid h)

lemma fold_marks_processed (gen : String → String → String) :
    ∀ (L : List Shift) (db : DB) (t : Shift), t ∈ L →
      MarkedSearching (L.foldl (process_no_show gen) db) t.id := by
  intro L
  induction L with
  | nil => intro db t ht; cases ht
  | cons s L ih =>
    intro db t ht
    rcases List.mem_cons.mp ht with rfl | ht'
    · exact fold_preserves_marked gen t.id L (process_no_show gen db t)
        (process_marks_self gen db t)
    · exact ih (process_no_show gen db s) t ht'

lemma no_show_shifts_spec (db : DB) (now : Int) :
    ∀ s ∈ no_show_shifts db now,
      s ∈ db.shifts ∧ s.status = "scheduled" ∧
      (¬ ∃ a ∈ db.attendance, a.shift_id = s.id) ∧
      s.start_time + s.grace_period_minutes.getD 15 ≤ now ∧
      s.replacement_status ≠ some "searching" ∧
      s.replacement_status ≠ some "accepted" := by
  intro s hs
  unfold no_show_shifts at hs
  rw [List.mem_filter] at hs
  obtain ⟨hmem, hp⟩ := hs
  simp only [Bool.and_eq_true, Bool.not_eq_true', beq_iff_eq,
    decide_eq_true_eq] at hp
  obtain ⟨⟨⟨hatt, hsch⟩, hgrace⟩, hrs⟩ := hp
  refine ⟨hmem, hsch, ?_, hgrace, ?_, ?_⟩
  · intro ⟨a, ha, hae⟩
    have : db.attendance.any (fun a => a.shift_id == s.id) = true := by
      rw [List.any_eq_true]
      exact ⟨a, ha, by simp [hae]⟩
    rw [this] at hatt
    cases hatt
  · intro h
    rw [h] at hrs
    exact absurd hrs (by decide)
  · intro h
    rw [h] at hrs
    exact absurd hrs (by decide)

lemma eligible_guards_spec (db : DB) (t : Shift) :
    ∀ u ∈ eligible_guards db t,
      u ∈ db.users ∧ u.role = "user" ∧ u.verified = true ∧ u.id ≠ t.guard_id ∧
      availability_flag db u.id = true ∧
      has_blocking_shift db.shifts u.id t = false := by
  intro u hu
  unfold eligible_guards at hu
  have hu' := (List.take_sublist 20 _).subset hu
  rw [List.mem_filter] at hu'
  obtain ⟨hmem, hp⟩ := hu'
  simp only [Bool.and_eq_true, bne_iff_ne, beq_iff_eq, Bool.not_eq_true'] at hp
  obtain ⟨⟨⟨⟨hne, hrole⟩, hver⟩, hav⟩, hblock⟩ := hp
  exact ⟨hmem, hrole, hver, hne, hav, hblock⟩

lemma eligible_guards_length (db : DB) (t : Shift) :
    (eligible_guards db t).length ≤ 20 := by
  unfold eligible_guards
  rw [List.length_take]
  omega

lemma blocking_false_no_overlap (shifts : List Shift) (gid : String) (t : Shift)
    (h : has_blocking_shift shifts gid t = false) :
    ∀ s2 ∈ shifts, s2.guard_id = gid →
      (s2.status = "scheduled" ∨ s2.status = "in_progress") →
      ¬(s2.start_time < t.end_time ∧ t.start_time < s2.end_time) := by
  intro s2 hs2 hgid hst ⟨ho1, ho2⟩
  have : has_blocking_shift shifts gid t = true := by
    unfold has_blocking_shift
    rw [List.any_eq_true]
    refine ⟨s2, hs2, ?_⟩
    simp only [Bool.and_eq_true, Bool.or_eq_true, beq_iff_eq, decide_eq_true_eq]
    refine ⟨⟨⟨hgid, ?_⟩, le_of_lt ho1⟩, le_of_lt ho2⟩
    rcases hst with h' | h'
    · exact Or.inl h'
    · exact Or.inr h'
  rw [h] at this
  cases this

lemma filter_block_ne (gen : String → String → String) (db₀ : DB) (s : Shift)
    (sid : String) (h : s.id ≠ sid) :
    ((eligible_guards db₀ s).map (replacement_notification gen s)).filter
      (fun n => n.related_shift_id == some sid) = [] := by
  rw [List.filter_eq_nil_iff]
  intro n hn
  rw [List.mem_map] at hn
  obtain ⟨u, _, rfl⟩ := hn
  simp [replacement_notification, h]

lemma filter_block_eq (gen : String → String → String) (db₀ : DB) (s : Shift) :
    ((eligible_guards db₀ s).map (replacement_notification gen s)).filter
      (fun n => n.related_shift_id == some s.id) =
      (eligible_guards db₀ s).map (replacement_notification gen s) := by
  rw [List.filter_eq_self]
  intro n hn
  rw [List.mem_map] at hn
  obtain ⟨u, _, rfl⟩ := hn
  simp [replacement_notification]

lemma filter_blocks_nil (gen : String → String → String) (db₀ : DB)
    (sid : String) :
    ∀ (L : List Shift), (∀ s' ∈ L, s'.id ≠ sid) →
      ((L.map fun s' => (eligible_guards db₀ s').map
        (replacement_notification gen s')).flatten.filter
          (fun n => n.related_shift_id == some sid)) = [] := by
  intro L
  induction L with
  | nil => intro _; rfl
  | cons a L ih =>
    intro h
    simp only [List.map_cons, List.flatten_cons, List.filter_append]
    rw [filter_block_ne gen db₀ a sid (h a (List.mem_cons_self a L)),
      ih fun s' hs' => h s' (List.mem_cons_of_mem a hs')]
    rfl

lemma filter_flatten_blocks (gen : String → String → String) (db₀ : DB) :
    ∀ (L : List Shift), (L.map Shift.id).Nodup → ∀ s ∈ L,
      ((L.map fun s' => (eligible_guards db₀ s').map
        (replacement_notification gen s')).flatten.filter
          (fun n => n.related_shift_id == some s.id)) =
        (eligible_guards db₀ s).map (replacement_notification gen s) := by
  intro L
  induction L with
  | nil => intro _ s hs; cases hs
  | cons a L ih =>
    intro hnd s hs
    simp only [List.map_cons, List.nodup_cons] at hnd
    simp only [List.map_cons, List.flatten_cons, List.filter_append]
    rcases List.mem_cons.mp hs with rfl | hs'
    · rw [filter_block_eq gen db₀ s, filter_blocks_nil gen db₀ s.id L ?_]
      · rw [List.append_nil]
      · intro s' hs' he
        exact hnd.1 (he ▸ List.mem_map_of_mem Shift.id hs')
    · have hane : a.id ≠ s.id := by
        intro he
        exact hnd.1 (he ▸ List.mem_map_of_mem Shift.id hs')
      rw [filter_block_ne gen db₀ a s.id hane, ih hnd.2 s hs']
      rfl

/-- C6: re-running the no-show detector with no intervening check-ins or shift
edits re-notifies nobody for an already-claimed shift: the first run moves
every shift it processes to `replacement_status = searching`; the selection
step only ever picks scheduled, attendance-less shifts past their grace
deadline that are not already `searching` or `accepted`; and hence every
notification of the second run that references a shift which was already
`searching` or `accepted` after the first run is one that already existed. -/
theorem detect_no_shows_idempotent (gen₁ gen₂ : String → String → String)
    (db : DB) (now₁ now₂ : Int)
    (hnodup : (db.shifts.map Shift.id).Nodup) :
    (∀ s ∈ no_show_shifts db now₁,
      ∀ s' ∈ (detect_no_shows gen₁ db now₁).shifts, s'.id = s.id →
        s'.replacement_status = some "searching") ∧
    (∀ s ∈ no_show_shifts db now₁,
      s ∈ db.shifts ∧ s.status = "scheduled" ∧
      (¬ ∃ a ∈ db.attendance, a.shift_id = s.id) ∧
      s.start_time + s.grace_period_minutes.getD 15 ≤ now₁ ∧
      s.replacement_status ≠ some "searching" ∧
      s.replacement_status ≠ some "accepted") ∧
    (∀ s' ∈ (detect_no_shows gen₁ db now₁).shifts,
      (s'.replacement_status = some "searching" ∨
        s'.replacement_status = some "accepted") →
      ∀ n ∈ (detect_no_shows gen₂ (detect_no_shows gen₁ db now₁) now₂).notifications,
        n.related_shift_id = some s'.id →
        n ∈ (detect_no_shows gen₁ db now₁).notifications) := by
  refine ⟨?_, no_show_shifts_spec db now₁, ?_⟩
  · intro s hs
    exact fold_marks_processed gen₁ (no_show_shifts db now₁) db s hs
  · intro s' hs' hrs n hn hrel
    have hnd1 : ((detect_no_shows gen₁ db now₁).shifts.map Shift.id).Nodup := by
      show (((no_show_shifts db now₁).foldl (process_no_show gen₁)
        db).shifts.map Shift.id).Nodup
      rw [detect_shifts_ids]
      exact hnodup
    obtain ⟨_, hnot⟩ := detect_fold_notifications gen₂ (detect_no_shows gen₁ db now₁)
      (no_show_shifts (detect_no_shows gen₁ db now₁) now₂)
      (detect_no_shows gen₁ db now₁)
      (sameSkeleton_refl (detect_no_shows gen₁ db now₁))
    rw [show detect_no_shows gen₂ (detect_no_shows gen₁ db now₁) now₂ =
      (no_show_shifts (detect_no_shows gen₁ db now₁) now₂).foldl
        (process_no_show gen₂) (detect_no_shows gen₁ db now₁) from rfl, hnot,
      List.mem_append] at hn
    rcases hn with hn | hn
    · exact hn
    · exfalso
      rw [List.mem_flatten] at hn
      obtain ⟨l, hl, hnl⟩ := hn
      rw [List.mem_map] at hl
      obtain ⟨s₂, hs₂, rfl⟩ := hl
      rw [List.mem_map] at hnl
      obtain ⟨u, _, rfl⟩ := hnl
      have hid : s₂.id = s'.id := by
        have : some s₂.id = some s'.id := hrel
        injection this
      obtain ⟨hmem₂, _, _, _, hns, hna⟩ :=
        no_show_shifts_spec (detect_no_shows gen₁ db now₁) now₂ s₂ hs₂
      have : s₂ = s' := List.inj_on_of_nodup_map hnd1 hmem₂ hs' hid
      rw [this] at hns hna
      rcases hrs with h | h
      · exact hns h
      · exact hna h

/-- C6 witness: one overdue scheduled shift; the ids of the shift table are
unique, so the theorem applies to the concrete two-guard state. -/
theorem detect_no_shows_idempotent_witness :
    (∀ s ∈ no_show_shifts c6_wdb 30,
      ∀ s' ∈ (detect_no_shows c6_gen c6_wdb 30).shifts, s'.id = s.id →
        s'.replacement_status = some "searching") ∧
    (∀ s ∈ no_show_shifts c6_wdb 30,
      s ∈ c6_wdb.shifts ∧ s.status = "scheduled" ∧
      (¬ ∃ a ∈ c6_wdb.attendance, a.shift_id = s.id) ∧
      s.start_time + s.grace_period_minutes.getD 15 ≤ 30 ∧
      s.replacement_status ≠ some "searching" ∧
      s.replacement_status ≠ some "accepted") ∧
    (∀ s' ∈ (detect_no_shows c6_gen c6_wdb 30).shifts,
      (s'.replacement_status = some "searching" ∨
        s'.replacement_status = some "accepted") →
      ∀ n ∈ (detect_no_shows c6_gen (detect_no_shows c6_gen c6_wdb 30) 45).notifications,
        n.related_shift_id = some s'.id →
        n ∈ (detect_no_shows c6_gen c6_wdb 30).notifications) :=
  detect_no_shows_idempotent c6_gen c6_gen c6_wdb 30 45 (by decide)

/-- C7: every notification created by a detector run for a processed shift
goes to a guard who exists, has the guard role, is verified, is not the
shift's original guard, has not set an explicit unavailable flag, and has no
shift in scheduled or in_progress whose half-open window overlaps the
processed shift's window; and at most 20 notifications are created per
shift. -/
theorem detect_no_shows_eligibility (gen : String → String → String) (db : DB)
    (now : Int) (hnodup : (db.shifts.map Shift.id).Nodup) :
    ∀ s ∈ no_show_shifts db now,
      (((detect_no_shows gen db now).notifications.drop
          db.notifications.length).filter
        (fun n => n.related_shift_id == some s.id)).length ≤ 20 ∧
      (∀ n ∈ (detect_no_shows gen db now).notifications.drop
          db.notifications.length,
        n.related_shift_id = some s.id →
        ∃ u ∈ db.users, n.user_id = u.id ∧ u.role = "user" ∧ u.verified = true ∧
          u.id ≠ s.guard_id ∧ availability_flag db u.id = true ∧
          ∀ s2 ∈ db.shifts, s2.guard_id = u.id →
            (s2.status = "scheduled" ∨ s2.status = "in_progress") →
            ¬(s2.start_time < s.end_time ∧ s.start_time < s2.end_time)) := by
  obtain ⟨_, hnot⟩ := detect_fold_notifications gen db (no_show_shifts db now)
    db (sameSkeleton_refl db)
  have hLnd : ((no_show_shifts db now).map Shift.id).Nodup := by
    have hsub : (no_show_shifts db now).Sublist db.shifts := List.filter_sublist _
    exact (hsub.map Shift.id).nodup hnodup
  have hdrop : (detect_no_shows gen db now).notifications.drop
      db.notifications.length =
      ((no_show_shifts db now).map fun s' => (eligible_guards db s').map
        (replacement_notification gen s')).flatten := by
    rw [show detect_no_shows gen db now = (no_show_shifts db now).foldl
      (process_no_show gen) db from rfl, hnot, List.drop_left]
  intro s hs
  constructor
  · rw [hdrop, filter_flatten_blocks gen db (no_show_shifts db now) hLnd s hs,
      List.length_map]
    exact eligible_guards_length db s
  · intro n hn hrel
    rw [hdrop, List.mem_flatten] at hn
    obtain ⟨l, hl, hnl⟩ := hn
    rw [List.mem_map] at hl
    obtain ⟨s₂, hs₂, rfl⟩ := hl
    rw [List.mem_map] at hnl
    obtain ⟨u, hu, rfl⟩ := hnl
    have hid : s₂.id = s.id := by
      have : some s₂.id = some s.id := hrel
      injection this
    have : s₂ = s := List.inj_on_of_nodup_map hLnd hs₂ hs hid
    subst this
    obtain ⟨hmem, hrole, hver, hne, hav, hblock⟩ := eligible_guards_spec db s₂ u hu
    exact ⟨u, hmem, rfl, hrole, hver, hne, hav,
      blocking_false_no_overlap db.shifts u.id s₂ hblock⟩

/-- C7 witness: the theorem applied to the concrete overdue shift s1 of the
two-guard state, whose shift table has unique keys. -/
theorem detect_no_shows_eligibility_witness :
    (((detect_no_shows c7_gen c7_wdb 30).notifications.drop
        c7_wdb.notifications.length).filter
      (fun n => n.related_shift_id == some "s1")).length ≤ 20 ∧
    (∀ n ∈ (detect_no_shows c7_gen c7_wdb 30).notifications.drop
        c7_wdb.notifications.length,
      n.related_shift_id = some "s1" →
      ∃ u ∈ c7_wdb.users, n.user_id = u.id ∧ u.role = "user" ∧
        u.verified = true ∧ u.id ≠ "g1" ∧
        availability_flag c7_wdb u.id = true ∧
        ∀ s2 ∈ c7_wdb.shifts, s2.guard_id = u.id →
          (s2.status = "scheduled" ∨ s2.status = "in_progress") →
          ¬(s2.start_time < (480 : Int) ∧ (0 : Int) < s2.end_time)) :=
  detect_no_shows_eligibility c7_gen c7_wdb 30 (by decide)
    ⟨"s1", "g1", 0, 480, "SiteA", "scheduled", none, none⟩ (by decide)

end DasiaAIO
